import Mathlib

/-!
Verification of the dialogue-orchestration core of the travel-agency chat
backend: entity extraction (src/backend/src/entityExtractor.js), FAQ ranking
(src/backend/src/faqRetriever.js), the intent router
(src/backend/src/intentRouter.js, src/backend/src/intentClassifier.js), and
the human-handoff scheduler (src/backend/src/services/humanHandoffService.js,
src/backend/src/routes/agent.js, the scheduled-task service and the LINE
handler).  JavaScript strings are modelled as Lean strings / character lists,
JS regular-expression matching is modelled by explicit scanners with the same
backtracking behaviour, millisecond timestamps are Int, and code that can
throw returns Except.
-/

namespace Spec2Proof

/-! ## Character and string helpers (JS semantics) -/

abbrev Chars := List Char

/-- Character at index, if in range. -/
def chAt (cs : Chars) (i : Nat) : Option Char := cs.get? i

/-- Is there an ASCII digit (JS regex d-class) at index i? -/
def digAt (cs : Chars) (i : Nat) : Bool :=
  match chAt cs i with
  | some c => c.isDigit
  | none => false

/-- Is the given character at index i? -/
def chIs (cs : Chars) (i : Nat) (c : Char) : Bool := chAt cs i == some c

/-- JS regex word character: [A-Za-z0-9_]. -/
def isWordChar (c : Char) : Bool :=
  (('A' ≤ c && c ≤ 'Z') || ('a' ≤ c && c ≤ 'z') || c.isDigit || c == '_')

/-- Is there a word character at index i (out of range counts as no)? -/
def wordAt (cs : Chars) (i : Nat) : Bool :=
  match chAt cs i with
  | some c => isWordChar c
  | none => false

/-- ASCII uppercase letter test. -/
def isUpperLetter (c : Char) : Bool := 'A' ≤ c && c ≤ 'Z'

/-- ASCII letter test (JS [A-Z] with the i flag). -/
def isAsciiLetter (c : Char) : Bool :=
  ('A' ≤ c && c ≤ 'Z') || ('a' ≤ c && c ≤ 'z')

/-- Is there an ASCII letter at index i? -/
def letterAt (cs : Chars) (i : Nat) : Bool :=
  match chAt cs i with
  | some c => isAsciiLetter c
  | none => false

/-- JS regex whitespace class (the members that can occur in chat text). -/
def isJsSpace (c : Char) : Bool :=
  c == ' ' || c == '\t' || c == '\n' || c == '\r' ||
  c == '\x0b' || c == '\x0c' || c == ' ' || c == '　' || c == '﻿'

/-- Is there a whitespace character at index i? -/
def spaceAt (cs : Chars) (i : Nat) : Bool :=
  match chAt cs i with
  | some c => isJsSpace c
  | none => false

/-- Is there a character of the JS class [-s] (hyphen or whitespace) at i? -/
def sepHyAt (cs : Chars) (i : Nat) : Bool := chIs cs i '-' || spaceAt cs i

/-- ASCII uppercasing of one character (String.prototype.toUpperCase on our inputs). -/
def upCh (c : Char) : Char :=
  if 'a' ≤ c && c ≤ 'z' then Char.ofNat (c.toNat - 32) else c

/-- ASCII lowercasing of one character (String.prototype.toLowerCase on our inputs). -/
def lowCh (c : Char) : Char :=
  if 'A' ≤ c && c ≤ 'Z' then Char.ofNat (c.toNat + 32) else c

/-- ASCII-uppercased string. -/
def upStr (s : String) : String := String.mk (s.toList.map upCh)

/-- ASCII-lowercased string. -/
def lowStr (s : String) : String := String.mk (s.toList.map lowCh)

/-- Substring of length len starting at index i (the matched slice of a regex). -/
def slice (cs : Chars) (i len : Nat) : String := String.mk ((cs.drop i).take len)

/-- Does the needle occur as a contiguous run inside the haystack list? -/
def inclAux (needle : Chars) : Chars → Bool
  | [] => needle.isEmpty
  | c :: rest => needle.isPrefixOf (c :: rest) || inclAux needle rest

/-- JS String.prototype.includes: needle occurs inside hay. -/
def incl (hay needle : String) : Bool := inclAux needle.toList hay.toList

/-- JS String.prototype.trim. -/
def jsTrim (s : String) : String :=
  String.mk (((s.toList.dropWhile isJsSpace).reverse.dropWhile isJsSpace).reverse)

/-- String.prototype.padStart(2, Char.ofNat 48): left-pad with zeros to length 2. -/
def pad2 (s : String) : String :=
  if s.length == 0 then "00" else if s.length == 1 then "0" ++ s else s

/-- Length (in digits) of the maximal ASCII digit run starting at i; fuel-driven. -/
def digRunFrom (cs : Chars) : Nat → Nat → Nat
  | 0, _ => 0
  | fuel + 1, i => if digAt cs i then digRunFrom cs fuel (i + 1) + 1 else 0

/-- Maximal digit run starting at i. -/
def digRun (cs : Chars) (i : Nat) : Nat := digRunFrom cs cs.length i

/-- Number of whitespace characters at i (the greedy s* step); fuel-driven. -/
def spaceRunFrom (cs : Chars) : Nat → Nat → Nat
  | 0, _ => 0
  | fuel + 1, i => if spaceAt cs i then spaceRunFrom cs fuel (i + 1) + 1 else 0

/-- Maximal whitespace run starting at i. -/
def spaceRun (cs : Chars) (i : Nat) : Nat := spaceRunFrom cs cs.length i

/-- Does the literal string lit occur at index i? -/
def litAt (cs : Chars) (i : Nat) (lit : String) : Bool :=
  (cs.drop i).take lit.length == lit.toList

/-- Digit characters to the number they denote (parseInt on a digit-only capture). -/
def digitsToNat (ds : Chars) : Nat :=
  ds.foldl (fun acc c => acc * 10 + (c.toNat - 48)) 0

/-- JS truthiness of an optional string: present and non-empty. -/
def truthy (o : Option String) : Bool :=
  match o with
  | some s => s ≠ ""
  | none => false

/-- JS a || b on optional strings: a if truthy, else b. -/
def jsOr (a b : Option String) : Option String := if truthy a then a else b

/-! ## Generic regex-exec scanner

Models RegExp.prototype.exec in a while loop with the g flag: repeatedly find
the leftmost match at or after the current position, then continue right
after it.  The matcher returns the match length plus a payload of captured
data.  Fuel is the string length; every step advances the position. -/

def scanMP {α : Type} (f : Nat → Option (Nat × α)) : Nat → Nat → List (Nat × Nat × α)
  | 0, _ => []
  | fuel + 1, i =>
    match f i with
    | some la => (i, la.1, la.2) :: scanMP f fuel (i + la.1)
    | none => scanMP f fuel (i + 1)

/-- Position p is inside one of the (start, length) spans (the matchedPositions set). -/
def coveredBy (spans : List (Nat × Nat)) (p : Nat) : Bool :=
  spans.any (fun sl => decide (sl.1 ≤ p) && decide (p < sl.1 + sl.2))

/-- Leftmost index accepted by p (RegExp.prototype.exec without the g loop). -/
def firstIdx (cs : Chars) (p : Nat → Bool) : Option Nat :=
  (List.range cs.length).find? p

/-! ## Entity extractor: dates (extractDates) -/

/-- One extracted date: raw matched text and normalized YYYY/MM/DD form. -/
structure DateEnt where
  original : String
  normalized : String
deriving Repr, DecidableEq

/-- Day capture of d-brace-1-2 with nothing after it: greedy two digits, else one. -/
def dayLenAt (cs : Chars) (j : Nat) : Option Nat :=
  if digAt cs j then (if digAt cs (j + 1) then some 2 else some 1) else none

/-- Is there a date separator (slash or hyphen) at index i? -/
def dateSepAt (cs : Chars) (i : Nat) : Bool := chIs cs i '/' || chIs cs i '-'

/-- Match of the full-date regex (four digits, separator, 1-2 digits, separator,
1-2 digits) starting exactly at i; returns (month digits, day digits) lengths.
The month group is greedy: two digits are taken only when a separator follows;
when the greedy day fails there is no viable backtrack (the fallback separator
position holds a digit), so the whole match fails. -/
def fullDateAt (cs : Chars) (i : Nat) : Option (Nat × Nat) :=
  if digAt cs i && digAt cs (i + 1) && digAt cs (i + 2) && digAt cs (i + 3)
      && dateSepAt cs (i + 4) then
    if digAt cs (i + 5) && digAt cs (i + 6) && dateSepAt cs (i + 7) then
      match dayLenAt cs (i + 8) with
      | some d => some (2, d)
      | none => none
    else if digAt cs (i + 5) && dateSepAt cs (i + 6) then
      match dayLenAt cs (i + 7) with
      | some d => some (1, d)
      | none => none
    else none
  else none

/-- Second group of the short-form date: 1-2 digits with no digit after
(the greedy two-digit take must satisfy the negative lookahead, else the
one-digit take must). -/
def shortG2At (cs : Chars) (j : Nat) : Option Nat :=
  if digAt cs j && digAt cs (j + 1) && !digAt cs (j + 2) then some 2
  else if digAt cs j && !digAt cs (j + 1) then some 1
  else none

/-- Match of the short-form date regex (negative lookbehind no-digit, 1-2
digits, slash, 1-2 digits, negative lookahead no-digit) starting at i;
returns the two group lengths. -/
def shortDateAt (cs : Chars) (i : Nat) : Option (Nat × Nat) :=
  if i == 0 || !digAt cs (i - 1) then
    if digAt cs i && digAt cs (i + 1) && chIs cs (i + 2) '/' then
      match shortG2At cs (i + 3) with
      | some b => some (2, b)
      | none => none
    else if digAt cs i && chIs cs (i + 1) '/' then
      match shortG2At cs (i + 2) with
      | some b => some (1, b)
      | none => none
    else none
  else none

/-- Match of the Chinese date regex (1-2 digits, 月, 1-2 digits, optional 日)
starting at i; returns (month length, day length, whether 日 was consumed). -/
def cnDateAt (cs : Chars) (i : Nat) : Option (Nat × Nat × Bool) :=
  if digAt cs i && digAt cs (i + 1) && chIs cs (i + 2) '月' then
    match dayLenAt cs (i + 3) with
    | some b => some (2, b, chIs cs (i + 3 + b) '日')
    | none => none
  else if digAt cs i && chIs cs (i + 1) '月' then
    match dayLenAt cs (i + 2) with
    | some b => some (1, b, chIs cs (i + 2 + b) '日')
    | none => none
  else none

/-- All full-date matches found by the exec loop: (start, length, groups). -/
def fullDateMatches (cs : Chars) : List (Nat × Nat × (Nat × Nat)) :=
  scanMP (fun i => (fullDateAt cs i).map (fun md => (6 + md.1 + md.2, md))) cs.length 0

/-- The matchedPositions spans recorded for full dates. -/
def fullDateSpans (cs : Chars) : List (Nat × Nat) :=
  (fullDateMatches cs).map (fun m => (m.1, m.2.1))

/-- All short-form matches found by the exec loop (before the consumed check). -/
def shortDateMatches (cs : Chars) : List (Nat × Nat × (Nat × Nat)) :=
  scanMP (fun i => (shortDateAt cs i).map (fun ab => (ab.1 + 1 + ab.2, ab))) cs.length 0

/-- Short-form matches that survive the already-consumed check
(matchedPositions.has(match.index)). -/
def emittedShortMatches (cs : Chars) : List (Nat × Nat × (Nat × Nat)) :=
  (shortDateMatches cs).filter (fun m => !coveredBy (fullDateSpans cs) m.1)

/-- All Chinese-form matches found by the exec loop. -/
def cnDateMatches (cs : Chars) : List (Nat × Nat × (Nat × Nat × Bool)) :=
  scanMP (fun i => (cnDateAt cs i).map (fun x => (x.1 + 1 + x.2.1 + (if x.2.2 then 1 else 0), x)))
    cs.length 0

/-- extractDates: full dates first (recording consumed ranges), then short
forms not starting in a consumed range, then Chinese forms; the year of the
two short forms is the current year, passed here as a parameter. -/
def extractDates (year : Nat) (text : String) : List DateEnt :=
  let cs := text.toList
  let fulls := (fullDateMatches cs).map (fun m =>
    { original := slice cs m.1 m.2.1
      normalized := slice cs m.1 4 ++ "/" ++ pad2 (slice cs (m.1 + 5) m.2.2.1) ++ "/"
        ++ pad2 (slice cs (m.1 + 5 + m.2.2.1 + 1) m.2.2.2) })
  let shorts := (emittedShortMatches cs).map (fun m =>
    { original := slice cs m.1 m.2.1
      normalized := toString year ++ "/" ++ pad2 (slice cs m.1 m.2.2.1) ++ "/"
        ++ pad2 (slice cs (m.1 + m.2.2.1 + 1) m.2.2.2) })
  let cns := (cnDateMatches cs).map (fun m =>
    { original := slice cs m.1 m.2.1
      normalized := toString year ++ "/" ++ pad2 (slice cs m.1 m.2.2.1) ++ "/"
        ++ pad2 (slice cs (m.1 + m.2.2.1 + 1) m.2.2.2.1) })
  fulls ++ shorts ++ cns

/-! ## Entity extractor: flight numbers, booking refs, destinations -/

/-- Airline code table (AIRLINES). -/
def AIRLINES : List (String × String) :=
  [("CX", "國泰航空"), ("BR", "長榮航空"), ("CI", "中華航空"), ("SQ", "新加坡航空"),
   ("TG", "泰國航空"), ("JL", "日本航空"), ("NH", "ANA全日空"), ("KE", "大韓航空"),
   ("OZ", "韓亞航空"), ("MH", "馬來西亞航空"), ("VN", "越南航空"), ("CA", "中國國際航空"),
   ("MU", "東方航空"), ("CZ", "南方航空"), ("HX", "香港航空"), ("UO", "香港快運"),
   ("TR", "酷航"), ("AK", "亞洲航空"), ("IT", "台灣虎航"), ("MM", "樂桃航空")]

/-- Destination code table (DESTINATIONS), in source order. -/
def DESTINATIONS : List (String × String) :=
  [("TPE", "台北"), ("KHH", "高雄"), ("RMQ", "台中"),
   ("PVG", "上海浦東"), ("SHA", "上海虹橋"), ("PEK", "北京"), ("CAN", "廣州"),
   ("SZX", "深圳"), ("XMN", "廈門"), ("HGH", "杭州"),
   ("NRT", "東京成田"), ("HND", "東京羽田"), ("KIX", "大阪"), ("ICN", "首爾仁川"),
   ("GMP", "首爾金浦"),
   ("SIN", "新加坡"), ("BKK", "曼谷"), ("KUL", "吉隆坡"), ("SGN", "胡志明市"),
   ("HAN", "河內"), ("MNL", "馬尼拉"),
   ("HKG", "香港"), ("MFM", "澳門")]

/-- Table lookup by key. -/
def tblLookup (tbl : List (String × String)) (k : String) : Option String :=
  (tbl.find? (fun kv => kv.1 == k)).map (fun kv => kv.2)

structure FlightEnt where
  original : String
  normalized : String
  airline : String
deriving Repr, DecidableEq

/-- Uppercased three characters starting at i (for the case-insensitive BTE test). -/
def upper3 (cs : Chars) (i : Nat) : String := String.mk (((cs.drop i).take 3).map upCh)

/-- Match of the flight-number regex (word boundary, not BTE, two letters,
optional whitespace, 2-4 digits, word boundary) at i.  The trailing boundary
forces the digit group to be the entire maximal digit run, which must have
length 2-4.  Payload: (position of first digit, digit count). -/
def flightAt (cs : Chars) (i : Nat) : Option (Nat × (Nat × Nat)) :=
  if (i == 0 || !wordAt cs (i - 1)) && !(upper3 cs i == "BTE")
      && letterAt cs i && letterAt cs (i + 1) then
    let j := if spaceAt cs (i + 2) then i + 3 else i + 2
    let r := digRun cs j
    if 2 ≤ r && r ≤ 4 && !wordAt cs (j + r) then some (j + r - i, (j, r)) else none
  else none

/-- extractFlightNumbers: every regex match whose (uppercased) two-letter code
is a known airline code. -/
def extractFlightNumbers (text : String) : List FlightEnt :=
  let cs := text.toList
  (scanMP (flightAt cs) cs.length 0).filterMap (fun m =>
    let code := String.mk (((cs.drop m.1).take 2).map upCh)
    match tblLookup AIRLINES code with
    | some airline => some
        { original := slice cs m.1 m.2.1
          normalized := code ++ slice cs m.2.2.1 m.2.2.2
          airline := airline }
    | none => none)

structure RefEnt where
  original : String
  normalized : String
  rtype : String
deriving Repr, DecidableEq

/-- Match of the internal booking-reference regex (BTE, case-insensitive,
followed by seven or more digits, greedy) at i. -/
def internalRefAt (cs : Chars) (i : Nat) : Option (Nat × Unit) :=
  if upper3 cs i == "BTE" then
    let r := digRun cs (i + 3)
    if 7 ≤ r then some (3 + r, ()) else none
  else none

/-- Is the character at i an uppercase letter or digit (the PNR class)? -/
def pnrCharAt (cs : Chars) (i : Nat) : Bool :=
  match chAt cs i with
  | some c => isUpperLetter c || c.isDigit
  | none => false

/-- Match of the generic PNR regex (word boundary, six uppercase
letters/digits, word boundary) at i. -/
def pnrAt (cs : Chars) (i : Nat) : Option (Nat × Unit) :=
  if (i == 0 || !wordAt cs (i - 1))
      && pnrCharAt cs i && pnrCharAt cs (i + 1) && pnrCharAt cs (i + 2)
      && pnrCharAt cs (i + 3) && pnrCharAt cs (i + 4) && pnrCharAt cs (i + 5)
      && !wordAt cs (i + 6) then some (6, ())
  else none

/-- extractBookingRefs: internal references first, then six-character PNRs
that contain both a letter and a digit. -/
def extractBookingRefs (text : String) : List RefEnt :=
  let cs := text.toList
  let internals := (scanMP (internalRefAt cs) cs.length 0).map (fun m =>
    { original := slice cs m.1 m.2.1
      normalized := upStr (slice cs m.1 m.2.1)
      rtype := "internal" })
  let pnrs := (scanMP (pnrAt cs) cs.length 0).filterMap (fun m =>
    let tok := (cs.drop m.1).take 6
    if tok.any isUpperLetter && tok.any Char.isDigit then
      some { original := slice cs m.1 6, normalized := upStr (slice cs m.1 6), rtype := "pnr" }
    else none)
  internals ++ pnrs

structure DestEnt where
  original : String
  normalized : String
  code : Option String
deriving Repr, DecidableEq

/-- Match of the airport-code regex (word boundary, three uppercase letters,
word boundary) at i. -/
def iataAt (cs : Chars) (i : Nat) : Option (Nat × Unit) :=
  if (i == 0 || !wordAt cs (i - 1))
      && (match chAt cs i with | some c => isUpperLetter c | none => false)
      && (match chAt cs (i + 1) with | some c => isUpperLetter c | none => false)
      && (match chAt cs (i + 2) with | some c => isUpperLetter c | none => false)
      && !wordAt cs (i + 3) then some (3, ())
  else none

/-- Common place names without codes (commonPlaces). -/
def commonPlaces : List String :=
  ["泰國", "日本", "韓國", "新加坡", "馬來西亞", "越南", "菲律賓", "印度", "歐洲", "美國"]

/-- extractDestinations: airport codes found in the text, then every table
city name contained in the text, then every common place contained in it. -/
def extractDestinations (text : String) : List DestEnt :=
  let cs := text.toList
  let codes := (scanMP (iataAt cs) cs.length 0).filterMap (fun m =>
    let code := slice cs m.1 3
    match tblLookup DESTINATIONS code with
    | some name => some { original := code, normalized := name, code := some code }
    | none => none)
  let cities := DESTINATIONS.filterMap (fun kv =>
    if incl text kv.2 then some { original := kv.2, normalized := kv.2, code := some kv.1 }
    else none)
  let places := commonPlaces.filterMap (fun place =>
    if incl text place then
      some { original := place, normalized := place, code := (none : Option String) }
    else none)
  codes ++ cities ++ places

/-! ## Entity extractor: class, direction, seat preference -/

structure KwEnt where
  original : String
  normalized : String
deriving Repr, DecidableEq

/-- Cabin-class keyword map in source order (classMap). -/
def classMap : List (String × String) :=
  [("商務艙", "BUSINESS"), ("商務", "BUSINESS"), ("business", "BUSINESS"),
   ("經濟艙", "ECONOMY"), ("經濟", "ECONOMY"), ("economy", "ECONOMY"),
   ("頭等艙", "FIRST"), ("頭等", "FIRST"), ("first", "FIRST"),
   ("豪華經濟艙", "PREMIUM_ECONOMY"), ("豪經艙", "PREMIUM_ECONOMY")]

/-- extractClass: first keyword of the map contained (case-insensitively) in
the text; the recorded original is the keyword itself. -/
def extractClass (text : String) : Option KwEnt :=
  (classMap.find? (fun kv => incl (lowStr text) (lowStr kv.1))).map
    (fun kv => { original := kv.1, normalized := kv.2 })

/-- Leftmost occurrence of any of the alternatives, trying them in order at
each position (text.match on an alternation). -/
def firstAlt (cs : Chars) (alts : List String) : Option String :=
  ((List.range cs.length).findSome? (fun i =>
    alts.findSome? (fun a => if litAt cs i a then some a else none)))

/-- extractDirection: 去程/出發 means OUTBOUND, 回程/返程 means INBOUND. -/
def extractDirection (text : String) : Option KwEnt :=
  let cs := text.toList
  if incl text "去程" || incl text "出發" then
    some { original := (firstAlt cs ["去程", "出發"]).getD "", normalized := "OUTBOUND" }
  else if incl text "回程" || incl text "返程" then
    some { original := (firstAlt cs ["回程", "返程"]).getD "", normalized := "INBOUND" }
  else none

/-- extractSeatPreference: window / aisle / front keyword groups. -/
def extractSeatPreference (text : String) : Option KwEnt :=
  let cs := text.toList
  if incl text "靠窗" || incl text "窗邊" then
    some { original := (firstAlt cs ["靠窗", "窗邊"]).getD "", normalized := "WINDOW" }
  else if incl text "走道" || incl text "靠走道" then
    some { original := (firstAlt cs ["走道", "靠走道"]).getD "", normalized := "AISLE" }
  else if incl text "前排" || incl text "前面" then
    some { original := (firstAlt cs ["前排", "前面"]).getD "", normalized := "FRONT" }
  else none

/-! ## Entity extractor: passenger count -/

structure PaxEnt where
  original : String
  normalized : String
  count : Nat
deriving Repr, DecidableEq

/-- Match of one digits-then-suffix passenger pattern at position i: a maximal
digit run, greedy whitespace, then the literal suffix.  Returns (captured
count, whole match length). -/
def paxNumAt (cs : Chars) (suffix : String) (i : Nat) : Option (Nat × Nat) :=
  let r := digRun cs i
  if r == 0 then none
  else
    let sp := spaceRun cs (i + r)
    if litAt cs (i + r + sp) suffix then
      some (digitsToNat ((cs.drop i).take r), r + sp + suffix.length)
    else none

/-- First match of a digits-then-suffix pattern anywhere in the text. -/
def paxNumFirst (cs : Chars) (suffix : String) : Option (Nat × Nat × Nat) :=
  ((List.range cs.length).findSome? (fun i =>
    (paxNumAt cs suffix i).map (fun cl => (i, cl.1, cl.2))))

/-- Chinese numeral table (chineseNumMap). -/
def chineseNumMap : List (Char × Nat) :=
  [('一', 1), ('二', 2), ('三', 3), ('四', 4), ('五', 5),
   ('六', 6), ('七', 7), ('八', 8), ('九', 9), ('十', 10), ('兩', 2)]

/-- Match of the Chinese-numeral passenger pattern at i: one numeral
character, greedy whitespace, 位. -/
def paxCnAt (cs : Chars) (i : Nat) : Option (Nat × Nat) :=
  match chAt cs i with
  | some c =>
    match (chineseNumMap.find? (fun kv => kv.1 == c)).map (fun kv => kv.2) with
    | some v =>
      let sp := spaceRun cs (i + 1)
      if chIs cs (i + 1 + sp) '位' then some (v, 1 + sp + 1) else none
    | none => none
  | none => none

/-- extractPassengers: the numeric patterns are tried in source order; for
each, only the first match in the text is considered, and it is accepted only
when the count is between 1 and 50; otherwise the next pattern is tried.  The
final pure-number pattern is anchored to the whole string.  After the numeric
patterns, the Chinese-numeral pattern is tried. -/
def extractPassengers (text : String) : Option PaxEnt :=
  let cs := text.toList
  let byPattern : List String → Option PaxEnt := fun suffixes =>
    suffixes.findSome? (fun suffix =>
      match paxNumFirst cs suffix with
      | some m =>
        if 1 ≤ m.2.1 && m.2.1 ≤ 50 then
          some { original := slice cs m.1 m.2.2, normalized := toString m.2.1, count := m.2.1 }
        else none
      | none => none)
  let pureNum : Option PaxEnt :=
    if cs ≠ [] && cs.all Char.isDigit then
      let n := digitsToNat cs
      if 1 ≤ n && n ≤ 50 then
        some { original := text, normalized := toString n, count := n }
      else none
    else none
  let numeric := byPattern ["位", "人", "個人", "大人", "位大人"]
  let numeric := match numeric with | some e => some e | none => pureNum
  match numeric with
  | some e => some e
  | none =>
    ((List.range cs.length).findSome? (fun i => (paxCnAt cs i).map (fun vl => (i, vl.1, vl.2)))).map
      (fun m => { original := slice cs m.1 m.2.2, normalized := toString m.2.1, count := m.2.1 })

/-! ## Entity extractor: tax id and phone numbers -/

structure TaxEnt where
  original : String
  normalized : String
deriving Repr, DecidableEq

/-- Eight consecutive digits starting at i. -/
def eightDigitsAt (cs : Chars) (i : Nat) : Bool :=
  digAt cs i && digAt cs (i + 1) && digAt cs (i + 2) && digAt cs (i + 3) &&
  digAt cs (i + 4) && digAt cs (i + 5) && digAt cs (i + 6) && digAt cs (i + 7)

/-- Eight digits at i delimited by word boundaries on both sides. -/
def standaloneEightAt (cs : Chars) (i : Nat) : Bool :=
  (i == 0 || !wordAt cs (i - 1)) && eightDigitsAt cs i && !wordAt cs (i + 8)

/-- extractTaxId, including its exception behaviour.  The source condition is
(match and includes 統編) or includes 統一編號 — the conjunction binds tighter —
so when the text contains 統一編號 but no eight-digit run the source
dereferences a null match and throws a TypeError, modelled as Except.error. -/
def extractTaxId (text : String) : Except String (Option TaxEnt) :=
  let cs := text.toList
  let m := firstIdx cs (fun i => eightDigitsAt cs i)
  if (m.isSome && incl text "統編") || incl text "統一編號" then
    match m with
    | some i => .ok (some { original := slice cs i 8, normalized := slice cs i 8 })
    | none => .error "TypeError: Cannot read properties of null"
  else
    match firstIdx cs (fun i => standaloneEightAt cs i) with
    | some i => .ok (some { original := slice cs i 8, normalized := slice cs i 8 })
    | none => .ok none

structure PhoneEnt where
  original : String
  normalized : String
  ptype : String
deriving Repr, DecidableEq

/-- Match of the mobile-number regex (09, two digits, optional separator,
three digits, optional separator, three digits) at i.  Each optional
separator is consumed exactly when present; the alternative of not consuming
it can never succeed because a digit is required next. -/
def mobileAt (cs : Chars) (i : Nat) : Option (Nat × Unit) :=
  if chIs cs i '0' && chIs cs (i + 1) '9' && digAt cs (i + 2) && digAt cs (i + 3) then
    let j1 := if sepHyAt cs (i + 4) then i + 5 else i + 4
    if digAt cs j1 && digAt cs (j1 + 1) && digAt cs (j1 + 2) then
      let j2 := if sepHyAt cs (j1 + 3) then j1 + 4 else j1 + 3
      if digAt cs j2 && digAt cs (j2 + 1) && digAt cs (j2 + 2) then
        some (j2 + 3 - i, ())
      else none
    else none
  else none

/-- Four consecutive digits at i. -/
def dig4At (cs : Chars) (i : Nat) : Bool :=
  digAt cs i && digAt cs (i + 1) && digAt cs (i + 2) && digAt cs (i + 3)

/-- Tail of the landline regex after the area digits: optional closing paren,
optional separator, four digits, optional separator, four digits; returns the
end position. -/
def telTail (cs : Chars) (k : Nat) : Option Nat :=
  let k1 := if chIs cs k ')' then k + 1 else k
  let k2 := if sepHyAt cs k1 then k1 + 1 else k1
  if dig4At cs k2 then
    let k3 := if sepHyAt cs (k2 + 4) then k2 + 5 else k2 + 4
    if dig4At cs k3 then some (k3 + 4) else none
  else none

/-- Match of the landline regex (optional opening paren, 2-3 digits greedy,
then the tail) at i. -/
def telAt (cs : Chars) (i : Nat) : Option (Nat × Unit) :=
  let s := if chIs cs i '(' then i + 1 else i
  let with3 :=
    if digAt cs s && digAt cs (s + 1) && digAt cs (s + 2) then telTail cs (s + 3) else none
  let res :=
    match with3 with
    | some e => some e
    | none => if digAt cs s && digAt cs (s + 1) then telTail cs (s + 2) else none
  res.map (fun e => (e - i, ()))

/-- Characters stripped from a normalized phone number. -/
def phoneStrip (keepParens : Bool) (s : String) : String :=
  String.mk (s.toList.filter (fun c =>
    !(c == '-' || isJsSpace c || (!keepParens && (c == '(' || c == ')')))))

/-- extractPhones: mobile matches first, then landline matches. -/
def extractPhones (text : String) : List PhoneEnt :=
  let cs := text.toList
  let mobiles := (scanMP (mobileAt cs) cs.length 0).map (fun m =>
    { original := slice cs m.1 m.2.1
      normalized := phoneStrip true (slice cs m.1 m.2.1)
      ptype := "mobile" })
  let tels := (scanMP (telAt cs) cs.length 0).map (fun m =>
    { original := slice cs m.1 m.2.1
      normalized := phoneStrip false (slice cs m.1 m.2.1)
      ptype := "tel" })
  mobiles ++ tels

/-! ## extractAllEntities and flattenEntities -/

structure AllEntities where
  dates : List DateEnt
  flightNumbers : List FlightEnt
  bookingRefs : List RefEnt
  destinations : List DestEnt
  passengers : Option PaxEnt
  cabinClass : Option KwEnt
  direction : Option KwEnt
  seatPreference : Option KwEnt
  taxId : Option TaxEnt
  phones : List PhoneEnt
deriving Repr, DecidableEq

/-- extractAllEntities: runs every extractor; extractTaxId may throw, which
propagates (there is no try/catch in the extractor module). -/
def extractAllEntities (year : Nat) (text : String) : Except String AllEntities := do
  let t ← extractTaxId text
  pure
    { dates := extractDates year text
      flightNumbers := extractFlightNumbers text
      bookingRefs := extractBookingRefs text
      destinations := extractDestinations text
      passengers := extractPassengers text
      cabinClass := extractClass text
      direction := extractDirection text
      seatPreference := extractSeatPreference text
      taxId := t
      phones := extractPhones text }

/-- The flat slot-to-value record produced by flattenEntities, which is also
the shape of the merged-entities object in the router.  Lowercase fields come
from rule-based extraction, uppercase fields from the external classifier. -/
structure Entities where
  date : Option String := none
  date_return : Option String := none
  flight_no : Option String := none
  airline : Option String := none
  booking_ref : Option String := none
  destination : Option String := none
  destination_code : Option String := none
  passengers : Option String := none
  cabinClass : Option String := none
  direction : Option String := none
  seat_preference : Option String := none
  tax_id : Option String := none
  phone : Option String := none
  passenger_name : Option String := none
  DATE : Option String := none
  FLIGHT_NO : Option String := none
  AIRLINE : Option String := none
  BOOKING_REF : Option String := none
  DESTINATION : Option String := none
  PASSENGERS : Option String := none
  CLASS : Option String := none
  DIRECTION : Option String := none
  SEAT_PREFERENCE : Option String := none
  TAX_ID : Option String := none
  PASSENGER_NAME : Option String := none
deriving Repr, DecidableEq

/-- flattenEntities. -/
def flattenEntities (e : AllEntities) : Entities :=
  { date := (e.dates.head?).map (fun d => d.normalized)
    date_return := (e.dates.get? 1).map (fun d => d.normalized)
    flight_no := (e.flightNumbers.head?).map (fun f => f.normalized)
    airline := (e.flightNumbers.head?).map (fun f => f.airline)
    booking_ref := (e.bookingRefs.head?).map (fun r => r.normalized)
    destination := (e.destinations.head?).map (fun d => d.normalized)
    destination_code := (e.destinations.head?).bind (fun d => d.code)
    passengers := e.passengers.map (fun p => p.normalized)
    cabinClass := e.cabinClass.map (fun c => c.normalized)
    direction := e.direction.map (fun d => d.normalized)
    seat_preference := e.seatPreference.map (fun s => s.normalized)
    tax_id := e.taxId.map (fun t => t.normalized)
    phone := (e.phones.head?).map (fun p => p.normalized) }

/-- JS object spread {...a, ...b}: keys present in b win. -/
def mergeEntities (a b : Entities) : Entities :=
  { date := b.date <|> a.date
    date_return := b.date_return <|> a.date_return
    flight_no := b.flight_no <|> a.flight_no
    airline := b.airline <|> a.airline
    booking_ref := b.booking_ref <|> a.booking_ref
    destination := b.destination <|> a.destination
    destination_code := b.destination_code <|> a.destination_code
    passengers := b.passengers <|> a.passengers
    cabinClass := b.cabinClass <|> a.cabinClass
    direction := b.direction <|> a.direction
    seat_preference := b.seat_preference <|> a.seat_preference
    tax_id := b.tax_id <|> a.tax_id
    phone := b.phone <|> a.phone
    passenger_name := b.passenger_name <|> a.passenger_name
    DATE := b.DATE <|> a.DATE
    FLIGHT_NO := b.FLIGHT_NO <|> a.FLIGHT_NO
    AIRLINE := b.AIRLINE <|> a.AIRLINE
    BOOKING_REF := b.BOOKING_REF <|> a.BOOKING_REF
    DESTINATION := b.DESTINATION <|> a.DESTINATION
    PASSENGERS := b.PASSENGERS <|> a.PASSENGERS
    CLASS := b.CLASS <|> a.CLASS
    DIRECTION := b.DIRECTION <|> a.DIRECTION
    SEAT_PREFERENCE := b.SEAT_PREFERENCE <|> a.SEAT_PREFERENCE
    TAX_ID := b.TAX_ID <|> a.TAX_ID
    PASSENGER_NAME := b.PASSENGER_NAME <|> a.PASSENGER_NAME }

/-! ## FAQ retriever (faqRetriever.js) -/

structure FAQEntry where
  id : String
  category : String
  question : String
  answer : String
  keywords : List String
deriving Repr, DecidableEq

/-- Stop words removed from query keywords. -/
def stopWords : List String :=
  ["的", "是", "在", "有", "嗎", "呢", "啊", "要", "我", "你", "可以", "請問",
   "想", "怎麼", "什麼", "多少"]

/-- The punctuation class stripped from queries; besides the full-width
marks it holds the ASCII double quote and apostrophe (written twice each in
the source class). -/
def isFaqPunct (c : Char) : Bool :=
  c == '，' || c == '。' || c == '？' || c == '！' || c == '、' || c == '：' ||
  c == '；' || c == '"' || c == Char.ofNat 39 || c == '（' ||
  c == '）' || c == '【' || c == '】'

/-- extractKeywords: strip punctuation to spaces, split on whitespace, drop
empty tokens, then drop stop words and single-character tokens. -/
def extractKeywords (query : String) : List String :=
  let cleaned := query.toList.map (fun c => if isFaqPunct c then ' ' else c)
  let words := ((cleaned.splitOnP isJsSpace).map String.mk).filter (fun w => w.length > 0)
  words.filter (fun w => !stopWords.contains w && w.length > 1)

/-- The five category trigger-keyword groups. -/
def categoryKeywords : List (String × List String) :=
  [("機票服務", ["機票", "訂票", "改票", "退票", "開票", "航班"]),
   ("簽證護照", ["簽證", "護照", "台胞證", "免簽", "入境"]),
   ("付款收據", ["付款", "刷卡", "收據", "發票", "統編"]),
   ("旅遊安全", ["旅遊警示", "紅色", "危險", "安全", "緊急"]),
   ("服務資訊", ["服務時間", "營業", "聯絡", "電話"])]

/-- The additive relevance score of one FAQ entry for a query. -/
def scoreFAQ (faq : FAQEntry) (query : String) : Nat :=
  let queryLower := lowStr query
  let queryKeywords := extractKeywords query
  let s1 := if incl (lowStr faq.question) queryLower then 10 else 0
  let s2 := 3 * (faq.keywords.filter (fun k => incl queryLower (lowStr k))).length
  let s3 := queryKeywords.foldl (fun acc k =>
    acc + (if incl (lowStr faq.question) k then 2 else 0)
        + (if incl (lowStr faq.answer) k then 1 else 0)) 0
  let s4 := categoryKeywords.foldl (fun acc ck =>
    if faq.category == ck.1 then acc + 2 * (ck.2.filter (fun kw => incl queryLower kw)).length
    else acc) 0
  s1 + s2 + s3 + s4

/-- The sort order of the score-descending sort: a may come before b.  The
JS Array.prototype.sort with comparator (a, b) => b.score - a.score is stable
(ES2019), which makes it exactly the stable insertion sort by this relation. -/
def scoreGE (a b : FAQEntry × Nat) : Prop := b.2 ≤ a.2

instance : DecidableRel scoreGE := fun a b => inferInstanceAs (Decidable (b.2 ≤ a.2))

instance : IsTotal (FAQEntry × Nat) scoreGE :=
  ⟨fun a b => Nat.le_total b.2 a.2⟩

instance : IsTrans (FAQEntry × Nat) scoreGE :=
  ⟨fun _ _ _ h1 h2 => Nat.le_trans h2 h1⟩

/-- searchFAQ: score every entry, keep positive scores, sort by score
descending (stable), truncate to maxResults.  Empty corpus short-circuits. -/
def searchFAQ (faqData : List FAQEntry) (query : String) (maxResults : Nat := 3) :
    List (FAQEntry × Nat) :=
  if faqData.length == 0 then []
  else
    (((faqData.map (fun f => (f, scoreFAQ f query))).filter
        (fun fs => 0 < fs.2)).insertionSort scoreGE).take maxResults

/-! ## Intent classifier adapter (intentClassifier.js)

The Gemini call is an external oracle.  Its observable outcomes at the
adapter boundary: the call (or JSON parse) throws, no JSON object is found in
the reply, or a classification record is produced.  classifyIntent catches
the first case itself; only an uninitialized model throws out of it. -/

/-- The 17 intent codes with (name, category, automation) (INTENTS). -/
def INTENTS : List (String × String × String × String) :=
  [("TICKET_BOOK", "訂票請求", "機票服務", "medium"),
   ("TICKET_CHANGE", "改票請求", "機票服務", "medium"),
   ("TICKET_CANCEL", "退票請求", "機票服務", "low"),
   ("QUOTE_REQUEST", "報價查詢", "機票服務", "high"),
   ("FLIGHT_QUERY", "航班查詢", "機票服務", "high"),
   ("BOOKING_STATUS", "訂位狀態查詢", "機票服務", "high"),
   ("VISA_INQUIRY", "簽證諮詢", "簽證護照", "high"),
   ("VISA_PROGRESS", "簽證進度查詢", "簽證護照", "medium"),
   ("PAYMENT_REQUEST", "付款請求", "付款收據", "high"),
   ("RECEIPT_REQUEST", "收據請求", "付款收據", "medium"),
   ("PASSENGER_INFO", "旅客資料", "資訊提供", "high"),
   ("BAGGAGE_INQUIRY", "行李查詢", "資訊提供", "high"),
   ("SEAT_REQUEST", "選位需求", "資訊提供", "medium"),
   ("GREETING", "問候/閒聊", "對話管理", "high"),
   ("TRANSFER_AGENT", "轉人工", "對話管理", "none"),
   ("FAQ_GENERAL", "一般FAQ問題", "其他", "high"),
   ("UNKNOWN", "無法識別", "其他", "none")]

/-- Lookup of an intent code in INTENTS. -/
def intentsLookup (code : String) : Option (String × String × String) :=
  (INTENTS.find? (fun e => e.1 == code)).map (fun e => e.2)

/-- One history message as passed to the classifier and kept in the session. -/
structure HistMsg where
  role : String
  content : String
deriving Repr, DecidableEq

/-- The JSON payload parsed out of the oracle reply. -/
structure Classification where
  intent : String
  confidence : Option Rat := none
  sub_intent : Option String := none
  entities : Option Entities := none
  requires_human : Option Bool := none
deriving Repr, DecidableEq

/-- The classifier oracle: none models an uninitialized model (classifyIntent
throws before its try block); otherwise the call yields an error (caught
inside classifyIntent), a reply with no parsable JSON, or a classification. -/
abbrev ClassifierEnv := Option (String → List HistMsg → Except String (Option Classification))

/-- The record classifyIntent resolves with. -/
structure IntentResult where
  success : Bool
  intent : String
  intentName : String := ""
  category : String := ""
  confidence : Rat := 0
  subIntent : Option String := none
  entities : Entities := {}
  requiresHuman : Bool := false
  error : Option String := none
deriving Repr, DecidableEq

/-- classifyIntent: throws when uninitialized; recovers internal failures and
unparsable replies into a success:false UNKNOWN result; otherwise fills in
defaults (confidence falls back to 0.8 when absent or zero, entities to the
empty record, requiresHuman from the payload or a none automation level). -/
def classifyIntent (env : ClassifierEnv) (userMessage : String) (history : List HistMsg) :
    Except String IntentResult :=
  match env with
  | none => .error "意圖分類器尚未初始化"
  | some gen =>
    .ok (match gen userMessage history with
      | .error e => { success := false, intent := "UNKNOWN", error := some e }
      | .ok none => { success := false, intent := "UNKNOWN", error := some "無法解析分類結果" }
      | .ok (some c) =>
        let info := (intentsLookup c.intent).getD ("無法識別", "其他", "none")
        { success := true
          intent := c.intent
          intentName := info.1
          category := info.2.1
          confidence := match c.confidence with
            | some v => if v == 0 then (4 : Rat) / 5 else v
            | none => (4 : Rat) / 5
          subIntent := c.sub_intent
          entities := c.entities.getD {}
          requiresHuman := c.requires_human.getD false || info.2.2 == "none" })

/-! ## Dialogue state and continuation detection (intentRouter.js) -/

/-- The per-conversation dialogue state (conversationState). -/
structure ConvState where
  currentIntent : String
  awaitingInfo : List String
  collectedInfo : Entities
  lastQuestion : String
  lastAskedAt : Int
deriving Repr, DecidableEq

/-- The session object (memory mode). -/
structure Session where
  entities : Entities := {}
  conversationState : Option ConvState := none
  history : List HistMsg := []
deriving Repr, DecidableEq

/-- Result of detectInfoProviding. -/
structure InfoDetection where
  isInfoProviding : Bool
  detectedTypes : List String
  isShort : Bool
deriving Repr, DecidableEq

/-- Anchored test for 1-2 digits, slash, 1-2 digits (the whole string). -/
def reMDShort (cs : Chars) : Bool :=
  let a := digRun cs 0
  (1 ≤ a && a ≤ 2) && chIs cs a '/' &&
    (let b := digRun cs (a + 1)
     (1 ≤ b && b ≤ 2) && cs.length == a + 1 + b)

/-- Anchored test for 4 digits, slash, 1-2 digits, slash, 1-2 digits. -/
def reYMDFull (cs : Chars) : Bool :=
  dig4At cs 0 && chIs cs 4 '/' &&
    (let m := digRun cs 5
     (1 ≤ m && m ≤ 2) && chIs cs (5 + m) '/' &&
       (let d := digRun cs (6 + m)
        (1 ≤ d && d ≤ 2) && cs.length == 6 + m + d))

/-- Anchored test for 1-2 digits, 月, 1-2 digits, optional 日 or 號. -/
def reCnMD (cs : Chars) : Bool :=
  let a := digRun cs 0
  (1 ≤ a && a ≤ 2) && chIs cs a '月' &&
    (let b := digRun cs (a + 1)
     (1 ≤ b && b ≤ 2) &&
       (cs.length == a + 1 + b ||
        (cs.length == a + 2 + b && (chIs cs (a + 1 + b) '日' || chIs cs (a + 1 + b) '號'))))

/-- The relative-day words accepted as date-like prefixes. -/
def relDayWords : List String := ["明天", "後天", "下週", "下個月", "大後天"]

/-- The city names recognized as destination-like answers. -/
def infoDestinations : List String :=
  ["東京", "大阪", "首爾", "曼谷", "新加坡", "香港", "澳門", "上海", "北京", "吉隆坡",
   "胡志明", "河內", "峇里島", "普吉島", "沖繩", "福岡", "名古屋", "釜山", "濟州"]

/-- Anchored test for exactly three uppercase letters. -/
def reUpper3 (cs : Chars) : Bool :=
  cs.length == 3 && cs.all isUpperLetter

/-- Anchored test for one digit 1-9 with optional 位. -/
def rePax1 (cs : Chars) : Bool :=
  match cs with
  | [c] => '1' ≤ c && c ≤ '9'
  | [c, w] => ('1' ≤ c && c ≤ '9') && w == '位'
  | _ => false

/-- Anchored test for one Chinese numeral 一..十 followed by 位. -/
def rePaxCn (cs : Chars) : Bool :=
  match cs with
  | [c, w] => "一二三四五六七八九十".toList.contains c && w == '位'
  | _ => false

/-- Anchored test for digits followed by 個人. -/
def rePaxGeRen (cs : Chars) : Bool :=
  let a := digRun cs 0
  1 ≤ a && cs.length == a + 2 && chIs cs a '個' && chIs cs (a + 1) '人'

/-- Anchored test for two letters then 2-4 digits (applied to the uppercased
message, so plain letters suffice). -/
def reFlight (cs : Chars) : Bool :=
  letterAt cs 0 && letterAt cs 1 &&
    (let d := digRun cs 2
     (2 ≤ d && d ≤ 4) && cs.length == 2 + d)

/-- Anchored, case-insensitive test for three letters then 6-8 digits. -/
def reBookingRef (cs : Chars) : Bool :=
  letterAt cs 0 && letterAt cs 1 && letterAt cs 2 &&
    (let d := digRun cs 3
     (6 ≤ d && d ≤ 8) && cs.length == 3 + d)

/-- The affirmative tokens of the confirmation allow-list. -/
def confirmTokens : List String :=
  ["好", "好的", "OK", "可以", "對", "沒問題", "是的", "嗯", "確認", "確定", "沒錯",
   "對的", "正確"]

/-- Anchored test for 是/對/好 optionally followed by 的/啊/呀. -/
def reAffirmSuffix (cs : Chars) : Bool :=
  match cs with
  | [c] => c == '是' || c == '對' || c == '好'
  | [c, d] => (c == '是' || c == '對' || c == '好') && (d == '的' || d == '啊' || d == '呀')
  | _ => false

/-- detectInfoProviding: pattern detectors for slot-providing messages, the
confirmation allow-list, and the short-message heuristic. -/
def detectInfoProviding (message : String) : InfoDetection :=
  let msg := jsTrim message
  let cs := msg.toList
  let dateLike := reMDShort cs || reYMDFull cs ||
    relDayWords.any (fun w => litAt cs 0 w) || reCnMD cs
  let destLike := infoDestinations.any (fun d => incl msg d) || reUpper3 cs
  let paxLike := rePax1 cs || rePaxCn cs || rePaxGeRen cs
  let flightLike := reFlight (upStr msg).toList
  let refLike := reBookingRef cs
  let classLike := ["商務", "經濟", "頭等", "business", "economy"].any
    (fun k => incl (lowStr msg) k)
  let dirLike := ["去程", "回程", "outbound", "inbound"].any (fun k => incl (lowStr msg) k)
  let seatLike := ["靠窗", "走道", "前排", "後排", "逃生門"].any (fun k => incl (lowStr msg) k)
  let confirmLike := confirmTokens.any (fun t => lowStr msg == lowStr t) ||
    litAt cs 0 "確認" || reAffirmSuffix cs
  let detectedTypes :=
    (if dateLike then ["DATE"] else []) ++
    (if destLike then ["DESTINATION"] else []) ++
    (if paxLike then ["PASSENGERS"] else []) ++
    (if flightLike then ["FLIGHT_NO"] else []) ++
    (if refLike then ["BOOKING_REF"] else []) ++
    (if classLike then ["CLASS"] else []) ++
    (if dirLike then ["DIRECTION"] else []) ++
    (if seatLike then ["SEAT_PREFERENCE"] else []) ++
    (if confirmLike then ["CONFIRMATION"] else [])
  let isShort := cs.length ≤ 10 && !incl msg "?" && !incl msg "？" && !incl msg "嗎"
  { isInfoProviding := detectedTypes ≠ [] || isShort
    detectedTypes := detectedTypes
    isShort := isShort }

/-- A positive continuation verdict. -/
structure Continuation where
  intent : String
  matchedTypes : List String
deriving Repr, DecidableEq

/-- checkIntentContinuation: requires an open state with an intent, a gap of
at most five minutes since lastAskedAt, a non-empty awaiting set, and either
a detected type matching the awaited set (or any confirmation) or a short
message. -/
def checkIntentContinuation (session : Session) (infoDetection : InfoDetection) (now : Int) :
    Option Continuation :=
  match session.conversationState with
  | none => none
  | some st =>
    if st.currentIntent == "" then none
    else if now - st.lastAskedAt > 5 * 60 * 1000 then none
    else if st.awaitingInfo.isEmpty then none
    else
      let matched := infoDetection.detectedTypes.filter (fun t =>
        st.awaitingInfo.contains t || t == "CONFIRMATION")
      if matched ≠ [] || (infoDetection.isShort && st.awaitingInfo ≠ []) then
        some { intent := st.currentIntent, matchedTypes := matched }
      else none

/-! ## Intent handlers (intentRouter.js) -/

/-- What a handler returns; absent JS fields default to falsy values. -/
structure HandlerResponse where
  message : String
  requiresHuman : Bool := false
  suggestedActions : List String := []
  awaitingInfo : List String := []
  conversationComplete : Bool := false
  lastQuestion : String := ""
deriving Repr, DecidableEq

/-- The affirmative tokens of handleTicketBook's own anchored regex.  This
list differs from the continuation-detection allow-list (confirmTokens): it
contains the bare 是 and omits 確認/確定, which the handler tests separately
with includes. -/
def bookingAffirmTokens : List String :=
  ["好", "好的", "對", "對的", "是", "是的", "OK", "可以", "沒問題", "嗯", "沒錯", "正確"]

/-- Anchored, case-insensitive affirmative-token test used by
handleTicketBook. -/
def isAffirmToken (m : String) : Bool :=
  bookingAffirmTokens.any (fun t => lowStr m == lowStr t)

/-- Join with newlines. -/
def joinNL (l : List String) : String := String.intercalate "\n" l

/-- handleTicketBook.  On a continuation carrying a confirmation with all of
destination, date and passenger count available, it finalizes; with a booking
reference it finalizes as a ticket-issue request; otherwise it asks for the
missing slots, or, when nothing is missing, asks for confirmation. -/
def handleTicketBook (message : String) (entities : Entities) (context : Session)
    (isContinuation : Bool) : HandlerResponse :=
  let isConfirmation := isContinuation &&
    (incl message "確認" || incl message "確定" || isAffirmToken (jsTrim message))
  let collectedInfo := match context.conversationState with
    | some st => st.collectedInfo
    | none => ({} : Entities)
  let dest := jsOr (jsOr entities.destination entities.DESTINATION) collectedInfo.destination
  let dt := jsOr (jsOr entities.date entities.DATE) collectedInfo.date
  let pax := jsOr (jsOr entities.passengers entities.PASSENGERS) collectedInfo.passengers
  if isConfirmation && truthy dest && truthy dt && truthy pax then
    { message := "好的，已確認您的訂票需求：\n- 目的地：" ++ dest.getD "" ++ "\n- 日期："
        ++ dt.getD "" ++ "\n- 人數：" ++ pax.getD ""
        ++ "\n\n我會為您查詢航班並提供報價，請稍候。專人會盡快與您聯繫！"
      requiresHuman := true
      suggestedActions := ["查詢航班", "提供報價"]
      conversationComplete := true }
  else
    let hasBookingRef := jsOr entities.booking_ref entities.BOOKING_REF
    let hasDestination := jsOr entities.destination entities.DESTINATION
    let hasDate := jsOr entities.date entities.DATE
    let hasPassengers := jsOr entities.passengers entities.PASSENGERS
    if truthy hasBookingRef then
      { message := "好的，我已收到您的開票請求。\n訂位代號：" ++ hasBookingRef.getD "" ++ "\n"
          ++ (if truthy hasDestination then "目的地：" ++ hasDestination.getD "" else "")
          ++ "\n\n請稍候，我會確認訂位資訊後為您處理開票。確認後會再通知您付款方式。"
        requiresHuman := true
        suggestedActions := ["確認訂位資訊", "發送付款連結"]
        conversationComplete := true }
    else
      let collectedItems :=
        (if truthy hasDestination then ["目的地：" ++ hasDestination.getD ""] else []) ++
        (if truthy hasDate then ["日期：" ++ hasDate.getD ""] else []) ++
        (if truthy hasPassengers then ["人數：" ++ hasPassengers.getD ""] else [])
      let ack := if isContinuation && collectedItems ≠ [] then
        "好的，已記錄：\n" ++ joinNL collectedItems ++ "\n\n" else ""
      let missingInfo :=
        (if truthy hasDate then [] else ["出發日期"]) ++
        (if truthy hasDestination then [] else ["目的地"]) ++
        (if truthy hasPassengers then [] else ["旅客人數"])
      let awaitingInfo :=
        (if truthy hasDate then [] else ["DATE"]) ++
        (if truthy hasDestination then [] else ["DESTINATION"]) ++
        (if truthy hasPassengers then [] else ["PASSENGERS"])
      if missingInfo ≠ [] then
        let base := if !isContinuation then "好的，我來協助您訂票。" else ack
        let resp := base ++ "請提供" ++ String.intercalate "和" (missingInfo.take 2) ++ "？"
          ++ (if missingInfo.length > 2 then
                "\n\n（還需要：" ++ String.intercalate "、" (missingInfo.drop 2) ++ "）"
              else "")
        { message := resp
          requiresHuman := awaitingInfo.isEmpty
          suggestedActions := []
          awaitingInfo := awaitingInfo
          lastQuestion := resp }
      else
        { message := ack ++ "好的，已收集到以下訂票資訊：\n- 目的地：" ++ hasDestination.getD ""
            ++ "\n- 日期：" ++ hasDate.getD "" ++ "\n- 人數：" ++ hasPassengers.getD ""
            ++ "\n\n請確認以上資訊是否正確？確認後我會為您查詢航班並報價。"
          requiresHuman := false
          suggestedActions := ["確認", "修改資訊"]
          awaitingInfo := ["CONFIRMATION"]
          lastQuestion := "請確認訂票資訊" }

/-- handleTicketChange. -/
def handleTicketChange (entities : Entities) (isContinuation : Bool) : HandlerResponse :=
  let hasDate := jsOr entities.date entities.DATE
  let hasFlightNo := jsOr entities.flight_no entities.FLIGHT_NO
  let hasDirection := jsOr entities.direction entities.DIRECTION
  let hasClass := jsOr entities.cabinClass entities.CLASS
  let hasBookingRef := jsOr entities.booking_ref entities.BOOKING_REF
  let hasPassengerName := jsOr entities.passenger_name entities.PASSENGER_NAME
  let collectedItems :=
    (if truthy hasDate then ["新日期：" ++ hasDate.getD ""] else []) ++
    (if truthy hasFlightNo then ["新航班：" ++ hasFlightNo.getD ""] else []) ++
    (if truthy hasDirection then
      (let d := hasDirection.getD ""
       ["航段：" ++ (if d == "OUTBOUND" || d == "去程" then "去程" else "回程")])
     else []) ++
    (if truthy hasClass then
      (let c := hasClass.getD ""
       ["艙等：" ++ (if c == "BUSINESS" then "商務艙" else if c == "ECONOMY" then "經濟艙" else c)])
     else [])
  let response :=
    if isContinuation && collectedItems ≠ [] then
      "好的，已記錄：\n" ++ joinNL collectedItems ++ "\n\n"
    else if !isContinuation then
      "好的，我來協助您改票。\n\n"
        ++ (if collectedItems ≠ [] then joinNL collectedItems ++ "\n\n" else "")
    else ""
  if !truthy hasBookingRef && !truthy hasPassengerName then
    let r := response ++ "改票可能會產生費用（約 TWD 800-3,300），實際費用需視票種規定而定。"
      ++ "\n\n請提供訂位代號或旅客姓名，以便查詢您的訂位。"
    { message := r, requiresHuman := true, suggestedActions := ["查詢改票費用"]
      awaitingInfo := ["BOOKING_REF", "PASSENGER_NAME"], lastQuestion := r }
  else if !truthy hasDate && !truthy hasFlightNo && !truthy hasDirection then
    let r := response ++ "請問您要改成什麼日期或航班？"
    { message := r, requiresHuman := true, suggestedActions := []
      awaitingInfo := ["DATE", "FLIGHT_NO"], lastQuestion := r }
  else
    { message := response ++ "改票資訊已收集完成：\n"
        ++ (if truthy hasBookingRef then "- 訂位代號：" ++ hasBookingRef.getD ""
            else "- 旅客：" ++ hasPassengerName.getD "")
        ++ "\n" ++ joinNL (collectedItems.map (fun item => "- " ++ item))
        ++ "\n\n改票可能會產生費用（約 TWD 800-3,300）。我會轉請專人為您處理。"
      requiresHuman := true
      suggestedActions := ["查詢改票費用", "確認改票"]
      conversationComplete := true }

/-- handleTicketCancel. -/
def handleTicketCancel : HandlerResponse :=
  { message := "我了解您想要退票。退票需要注意以下事項：\n\n1. 部分促銷票/特惠票可能不可退票"
      ++ "\n2. 一般經濟艙退票手續費約 TWD 2,000-5,000\n3. 已使用的機票無法退票"
      ++ "\n\n請提供您的訂位代號或旅客姓名，我會查詢您的票種規定並說明退票費用。"
      ++ "\n\n由於退票涉及費用計算，我會轉請專人為您處理。"
    requiresHuman := true
    suggestedActions := ["轉人工處理"] }

/-- handleQuoteRequest. -/
def handleQuoteRequest (entities : Entities) (isContinuation : Bool) : HandlerResponse :=
  let hasDestination := jsOr entities.destination entities.DESTINATION
  let hasDate := jsOr entities.date entities.DATE
  let hasClass := jsOr entities.cabinClass entities.CLASS
  let hasPassengers := jsOr entities.passengers entities.PASSENGERS
  let collectedItems :=
    (if truthy hasDestination then ["目的地：" ++ hasDestination.getD ""] else []) ++
    (if truthy hasDate then ["日期：" ++ hasDate.getD ""] else []) ++
    (if truthy hasClass then
      ["艙等：" ++ (if hasClass.getD "" == "BUSINESS" then "商務艙" else "經濟艙")] else []) ++
    (if truthy hasPassengers then ["人數：" ++ hasPassengers.getD ""] else [])
  let response :=
    if isContinuation && collectedItems ≠ [] then
      "好的，已記錄：\n" ++ joinNL collectedItems ++ "\n\n"
    else if !isContinuation then
      "好的，我來為您查詢票價。\n\n"
        ++ (if collectedItems ≠ [] then joinNL collectedItems ++ "\n\n" else "")
    else ""
  let awaitingInfo :=
    (if truthy hasDestination then [] else ["DESTINATION"]) ++
    (if truthy hasDate then [] else ["DATE"])
  if awaitingInfo ≠ [] then
    let missingItems :=
      (if truthy hasDestination then [] else ["目的地"]) ++
      (if truthy hasDate then [] else ["出發日期"])
    let r := response ++ "請提供" ++ String.intercalate "和" missingItems ++ "？"
    { message := r, requiresHuman := false, suggestedActions := []
      awaitingInfo := awaitingInfo, lastQuestion := r }
  else
    { message := response ++ "好的，查詢條件：\n- 目的地：" ++ hasDestination.getD ""
        ++ "\n- 日期：" ++ hasDate.getD ""
        ++ (if truthy hasClass then
              "\n- 艙等：" ++ (if hasClass.getD "" == "BUSINESS" then "商務艙" else "經濟艙")
            else "")
        ++ (if truthy hasPassengers then "\n- 人數：" ++ hasPassengers.getD "" else "")
        ++ "\n\n請稍候，我會為您查詢票價並報價。"
        ++ "\n\n（目前系統尚未串接 GDS，票價查詢功能開發中。請稍候由專人報價。）"
      requiresHuman := true
      suggestedActions := ["提供詳細報價"]
      conversationComplete := true }

/-- handleFlightQuery. -/
def handleFlightQuery (entities : Entities) (isContinuation : Bool) : HandlerResponse :=
  let hasDestination := jsOr entities.destination entities.DESTINATION
  let hasDate := jsOr entities.date entities.DATE
  let hasAirline := jsOr entities.airline entities.AIRLINE
  let collectedItems :=
    (if truthy hasDestination then ["目的地：" ++ hasDestination.getD ""] else []) ++
    (if truthy hasDate then ["日期：" ++ hasDate.getD ""] else []) ++
    (if truthy hasAirline then ["航空公司：" ++ hasAirline.getD ""] else [])
  let response :=
    if isContinuation && collectedItems ≠ [] then
      "好的，已記錄：\n" ++ joinNL collectedItems ++ "\n\n"
    else if !isContinuation then
      "好的，我來為您查詢航班。\n\n"
        ++ (if collectedItems ≠ [] then joinNL collectedItems ++ "\n\n" else "")
    else ""
  if !truthy hasDestination then
    let r := response ++ "請問您要飛往哪裡？"
    { message := r, requiresHuman := false, awaitingInfo := ["DESTINATION"], lastQuestion := r }
  else if !truthy hasDate then
    let r := response ++ "請問您預計什麼時候出發？"
    { message := r, requiresHuman := false, awaitingInfo := ["DATE"], lastQuestion := r }
  else
    { message := response ++ "好的，我會為您查詢前往 " ++ hasDestination.getD "" ++ "、"
        ++ hasDate.getD "" ++ " 的航班。"
        ++ "\n\n（目前系統尚未串接 GDS，航班查詢功能開發中。請稍候由專人查詢。）"
      requiresHuman := true
      suggestedActions := ["查詢航班"]
      conversationComplete := true }

/-- handleBookingStatus. -/
def handleBookingStatus (entities : Entities) (isContinuation : Bool) : HandlerResponse :=
  let hasBookingRef := jsOr entities.booking_ref entities.BOOKING_REF
  let hasPassengerName := jsOr entities.passenger_name entities.PASSENGER_NAME
  if truthy hasBookingRef || truthy hasPassengerName then
    let identifier := if truthy hasBookingRef then "訂位代號 " ++ hasBookingRef.getD ""
      else "旅客 " ++ hasPassengerName.getD ""
    { message := "好的，我來查詢" ++ identifier ++ "的狀態。"
        ++ "\n\n（目前系統尚未串接內部訂位系統，請稍候由專人為您確認。）"
      requiresHuman := true
      suggestedActions := ["查詢訂位狀態"]
      conversationComplete := true }
  else
    { message := if isContinuation then "請提供訂位代號或旅客姓名？"
        else "請提供您的訂位代號或旅客姓名，我來為您查詢訂位狀態。\n\n訂位代號格式範例：BTE2500208"
      requiresHuman := false
      suggestedActions := []
      awaitingInfo := ["BOOKING_REF", "PASSENGER_NAME"]
      lastQuestion := "請提供訂位代號或旅客姓名" }

/-- Destination-specific visa notes (visaInfo). -/
def visaInfoTbl : List (String × String) :=
  [("泰國", "持台灣護照前往泰國觀光，目前享有免簽待遇，可停留最長60天。"),
   ("日本", "持台灣護照前往日本觀光免簽證，可停留90天。"),
   ("韓國", "持台灣護照前往韓國觀光免簽證，可停留90天。"),
   ("新加坡", "持台灣護照前往新加坡觀光免簽證，可停留30天。"),
   ("香港", "持台灣護照前往香港需申請入境許可（台胞證或網簽）。"),
   ("澳門", "持台灣護照前往澳門可停留30天，無需簽證。"),
   ("中國", "前往中國大陸需辦理台胞證。一般件約5-7工作天，急件約3工作天。")]

/-- handleVisaInquiry: best FAQ answer when one matches, else the per-country
note, else generic guidance. -/
def handleVisaInquiry (faqData : List FAQEntry) (message : String) (entities : Entities) :
    HandlerResponse :=
  let hasDestination := jsOr entities.destination entities.DESTINATION
  match searchFAQ faqData message 3 with
  | best :: _ => { message := best.1.answer, requiresHuman := false, suggestedActions := [] }
  | [] =>
    let base := "關於簽證問題，以下是一些常見資訊：\n\n"
    if truthy hasDestination then
      match tblLookup visaInfoTbl (hasDestination.getD "") with
      | some info => { message := info, requiresHuman := false, suggestedActions := [] }
      | none =>
        { message := base ++ "您詢問的是前往" ++ hasDestination.getD ""
            ++ "的簽證資訊。請稍候，我會請專人為您確認。"
          requiresHuman := false, suggestedActions := [] }
    else
      { message := base ++ "常見諮詢：\n- 台胞證：辦理約5-7工作天\n- 泰國：免簽60天"
          ++ "\n- 日本/韓國：免簽90天\n- 申根區：免簽90天\n\n請告知您的目的地，我會為您查詢詳細資訊。"
        requiresHuman := false, suggestedActions := [] }

/-- handleVisaProgress. -/
def handleVisaProgress : HandlerResponse :=
  { message := "好的，我來查詢您的簽證/護照辦理進度。"
      ++ "\n\n請問是哪位申請人的證件？以及是辦理什麼證件（台胞證/護照/其他簽證）？"
      ++ "\n\n一般辦理時間參考：\n- 台胞證一般件：5-7個工作天\n- 台胞證急件：3個工作天"
      ++ "\n- 護照換發：約4個工作天"
    requiresHuman := true
    suggestedActions := ["查詢辦理進度"] }

/-- handlePaymentRequest. -/
def handlePaymentRequest (entities : Entities) : HandlerResponse :=
  { message := "好的，我來協助您付款。\n\n我們提供以下付款方式：\n- 線上刷卡（Visa/MasterCard/JCB）"
      ++ "\n- 銀行匯款\n\n"
      ++ (if truthy entities.booking_ref then "訂位代號：" ++ entities.booking_ref.getD ""
          else "請提供您的訂位代號，我會發送刷卡連結給您。")
      ++ "\n\n注意：刷卡連結有時效限制，請儘速完成付款。"
    requiresHuman := true
    suggestedActions := ["發送刷卡連結"] }

/-- handleReceiptRequest. -/
def handleReceiptRequest (entities : Entities) : HandlerResponse :=
  { message := "好的，我來協助您申請收據/發票。\n\n"
      ++ (if truthy entities.tax_id then "統一編號：" ++ entities.tax_id.getD "" ++ "\n" else "")
      ++ "請問需要開立：\n1. 二聯式發票（個人）\n2. 三聯式發票（公司報帳）\n\n"
      ++ (if !truthy entities.tax_id then "如需開立公司抬頭，請提供統一編號。" else "")
      ++ "\n\n收據會在付款完成後1-2個工作天由會計部門開立。"
    requiresHuman := true
    suggestedActions := ["轉會計處理"] }

/-- handlePassengerInfo. -/
def handlePassengerInfo : HandlerResponse :=
  { message := "好的，我已收到您提供的旅客資料。"
      ++ "\n\n為確保資料正確，請確認以下訂票所需資訊是否完整：\n1. 護照英文姓名（需與護照完全一致）"
      ++ "\n2. 出生日期\n3. 護照號碼\n4. 護照有效期限\n5. 國籍\n\n如有其他旅客，請一併提供資料。"
    requiresHuman := false
    suggestedActions := ["確認資料"] }

/-- Baggage allowance table (baggageInfo): (airline, economy, business). -/
def baggageTbl : List (String × String × String) :=
  [("國泰", "23公斤x1件", "32公斤x2件"), ("長榮", "23公斤x1件", "32公斤x2件"),
   ("華航", "23公斤x1件", "32公斤x2件"), ("星宇", "23公斤x1件", "32公斤x2件"),
   ("虎航", "20公斤（需加購）", "-"), ("樂桃", "20公斤（需加購）", "-"),
   ("亞航", "20公斤（需加購）", "-")]

/-- handleBaggageInquiry. -/
def handleBaggageInquiry (entities : Entities) : HandlerResponse :=
  let hasAirline := jsOr entities.airline entities.AIRLINE
  let info := if truthy hasAirline then
    (baggageTbl.find? (fun e => e.1 == hasAirline.getD "")).map (fun e => e.2)
  else none
  { message := match info with
      | some i => hasAirline.getD "" ++ "航空行李規定：\n- 經濟艙：" ++ i.1 ++ "\n- 商務艙："
          ++ i.2 ++ "\n\n手提行李：7公斤，尺寸 56x36x23 公分以內"
      | none => "關於行李規定：\n\n一般航空公司規定：\n- 經濟艙：23公斤 x 1件\n- 商務艙：32公斤 x 2件"
          ++ "\n- 手提行李：7公斤\n\n廉價航空（虎航、樂桃等）需另外加購託運行李。\n\n"
          ++ (if truthy hasAirline then "您詢問的是" ++ hasAirline.getD "" ++ "的規定，請稍候確認。"
              else "請問您是搭乘哪家航空公司？")
    requiresHuman := false
    suggestedActions := [] }

/-- handleSeatRequest. -/
def handleSeatRequest (entities : Entities) : HandlerResponse :=
  let pref := match entities.seat_preference with
    | some p => "座位偏好："
        ++ (if p == "WINDOW" then "靠窗" else if p == "AISLE" then "走道"
            else if p == "FRONT" then "前排" else p) ++ "\n"
    | none => ""
  { message := "好的，我已記錄您的座位偏好。\n\n" ++ pref
      ++ "\n我們會在訂位時盡量為您安排偏好的座位。"
      ++ "\n\n提醒：實際座位安排需視航空公司規定和可用座位而定。"
    requiresHuman := false
    suggestedActions := ["記錄座位偏好"] }

/-- The three greeting replies. -/
def greetingReplies : List String :=
  ["您好！我是金龍旅遊 AI 助理，很高興為您服務。請問有什麼可以幫您的嗎？",
   "您好！歡迎聯繫金龍旅遊。請問需要什麼協助呢？",
   "嗨！我是金龍旅遊的 AI 客服，請問有什麼可以為您服務的？"]

/-- handleGreeting; the random pick of the generic reply is modelled by the
rand parameter (Math.floor of Math.random times three). -/
def handleGreeting (rand : Nat) (message : String) : HandlerResponse :=
  if incl message "謝謝" || incl message "感謝" then
    { message := "不客氣！很高興能幫上忙。如有其他問題，隨時可以詢問喔！"
      requiresHuman := false, suggestedActions := [] }
  else if incl message "收到" || incl message "好的" || incl message "了解" then
    { message := "好的，如有其他問題隨時告訴我！", requiresHuman := false, suggestedActions := [] }
  else
    { message := (greetingReplies.get? (rand % 3)).getD "", requiresHuman := false
      suggestedActions := [] }

/-- handleTransferAgent. -/
def handleTransferAgent : HandlerResponse :=
  { message := "好的，我來為您轉接人工客服。\n\n服務時間：週一至週五 9:00-18:00"
      ++ "\n\n如在非上班時間有緊急需求（72小時內出發），請撥打：\n📞 0988-157-972"
      ++ "\n\n請稍候，客服人員會盡快與您聯繫。"
    requiresHuman := true
    suggestedActions := ["轉接人工客服"] }

/-- handleFaqGeneral: best FAQ answer, else escalation. -/
def handleFaqGeneral (faqData : List FAQEntry) (message : String) : HandlerResponse :=
  match searchFAQ faqData message 3 with
  | best :: _ => { message := best.1.answer, requiresHuman := false, suggestedActions := [] }
  | [] => { message := "這個問題我需要請專人為您處理，請稍候。", requiresHuman := true
            suggestedActions := [] }

/-- handleUnknown: best FAQ answer, else the generic capability menu (which
does not set requiresHuman). -/
def handleUnknown (faqData : List FAQEntry) (message : String) : HandlerResponse :=
  match searchFAQ faqData message 3 with
  | best :: _ => { message := best.1.answer, requiresHuman := false, suggestedActions := [] }
  | [] =>
    { message := "抱歉，我不太確定您的需求。您可以：\n\n1. 訂票/改票/退票\n2. 查詢航班或票價"
        ++ "\n3. 簽證諮詢\n4. 付款或索取收據\n\n或者，請直接描述您的需求，我會盡力協助您。"
        ++ "\n\n如需人工服務，請告訴我「找真人」。"
      requiresHuman := false
      suggestedActions := [] }

/-- getIntentHandler plus the handler invocation: routes by intent code,
falling back to handleUnknown. -/
def dispatchIntent (faqData : List FAQEntry) (rand : Nat) (intent : String) (message : String)
    (entities : Entities) (context : Session) (isContinuation : Bool) : HandlerResponse :=
  if intent == "TICKET_BOOK" then handleTicketBook message entities context isContinuation
  else if intent == "TICKET_CHANGE" then handleTicketChange entities isContinuation
  else if intent == "TICKET_CANCEL" then handleTicketCancel
  else if intent == "QUOTE_REQUEST" then handleQuoteRequest entities isContinuation
  else if intent == "FLIGHT_QUERY" then handleFlightQuery entities isContinuation
  else if intent == "BOOKING_STATUS" then handleBookingStatus entities isContinuation
  else if intent == "VISA_INQUIRY" then handleVisaInquiry faqData message entities
  else if intent == "VISA_PROGRESS" then handleVisaProgress
  else if intent == "PAYMENT_REQUEST" then handlePaymentRequest entities
  else if intent == "RECEIPT_REQUEST" then handleReceiptRequest entities
  else if intent == "PASSENGER_INFO" then handlePassengerInfo
  else if intent == "BAGGAGE_INQUIRY" then handleBaggageInquiry entities
  else if intent == "SEAT_REQUEST" then handleSeatRequest entities
  else if intent == "GREETING" then handleGreeting rand message
  else if intent == "TRANSFER_AGENT" then handleTransferAgent
  else if intent == "FAQ_GENERAL" then handleFaqGeneral faqData message
  else handleUnknown faqData message

/-! ## handleMessage (intentRouter.js) -/

/-- The record handleMessage resolves with. -/
structure TurnOutcome where
  success : Bool
  intent : String := ""
  intentName : String := ""
  category : String := ""
  confidence : Rat := 0
  entities : Entities := {}
  reply : String
  requiresHuman : Bool := false
  suggestedActions : List String := []
  isContinuation : Bool := false
  awaitingInfo : List String := []
  error : Option String := none
deriving Repr, DecidableEq

/-- The intentResult synthesized for a continuation turn (no classifier call). -/
def contIntentResult (c : Continuation) : IntentResult :=
  { success := true
    intent := c.intent
    intentName := ((intentsLookup c.intent).map (fun i => i.1)).getD "延續對話"
    category := ((intentsLookup c.intent).map (fun i => i.2.1)).getD "對話管理"
    confidence := (9 : Rat) / 10
    entities := {} }

/-- updateConversationState: refresh the dialogue state, merging collected
info and stamping lastAskedAt with the current time. -/
def updateConversationStateF (s : Session) (intent : String) (awaitingInfo : List String)
    (collectedInfo : Entities) (lastQuestion : String) (now : Int) : Session :=
  { s with conversationState := some (ConvState.mk intent awaitingInfo
      (mergeEntities
        (match s.conversationState with | some st => st.collectedInfo | none => {})
        collectedInfo)
      lastQuestion now) }

/-- updateSessionHistory in memory mode: append the exchange, keep the last
20 entries. -/
def updateSessionHistoryF (s : Session) (userMessage reply : String) : Session :=
  let h := s.history ++ [{ role := "user", content := userMessage },
                         { role := "assistant", content := reply }]
  { s with history := if h.length > 20 then h.drop (h.length - 20) else h }

/-- The tail of the handleMessage try-block once the intent result is known:
rule-based extraction, entity merge (collected info, then session entities,
then rule extraction, then classifier entities, later sources winning),
dispatch, state update, history update. -/
def handleTurnWith (faqData : List FAQEntry) (rand year : Nat) (now : Int)
    (userMessage : String) (session : Session) (intentResult : IntentResult)
    (isContinuation : Bool) : Except String (TurnOutcome × Session) := do
  let ruleBasedEntities ← extractAllEntities year userMessage
  let flatEntities := flattenEntities ruleBasedEntities
  let mergedEntities := mergeEntities (mergeEntities (mergeEntities
      (match session.conversationState with | some st => st.collectedInfo | none => {})
      session.entities) flatEntities) intentResult.entities
  let session := { session with entities := mergedEntities }
  let response := dispatchIntent faqData rand intentResult.intent userMessage mergedEntities
    session isContinuation
  let session :=
    if response.awaitingInfo ≠ [] then
      updateConversationStateF session intentResult.intent response.awaitingInfo mergedEntities
        response.lastQuestion now
    else if response.conversationComplete then
      { session with conversationState := none }
    else session
  let session := updateSessionHistoryF session userMessage response.message
  pure
    ({ success := true
       intent := intentResult.intent
       intentName := intentResult.intentName
       category := intentResult.category
       confidence := intentResult.confidence
       entities := mergedEntities
       reply := response.message
       requiresHuman := response.requiresHuman || intentResult.requiresHuman
       suggestedActions := response.suggestedActions
       isContinuation := isContinuation
       awaitingInfo := response.awaitingInfo }, session)

/-- The try-block of handleMessage: continuation check, then classification
(only when not continuing), then the shared tail above. -/
def handleMessageBody (env : ClassifierEnv) (faqData : List FAQEntry) (rand year : Nat)
    (now : Int) (userMessage : String) (session : Session) :
    Except String (TurnOutcome × Session) :=
  let infoDetection := detectInfoProviding userMessage
  match checkIntentContinuation session infoDetection now with
  | some c => handleTurnWith faqData rand year now userMessage session (contIntentResult c) true
  | none => do
    let ir ← classifyIntent env userMessage session.history
    handleTurnWith faqData rand year now userMessage session ir false

/-- handleMessage: the try-block above, with the catch-all producing the safe
default reply with requiresHuman set. -/
def handleMessage (env : ClassifierEnv) (faqData : List FAQEntry) (rand year : Nat)
    (now : Int) (userMessage : String) (session : Session) : TurnOutcome × Session :=
  match handleMessageBody env faqData rand year now userMessage session with
  | .ok r => r
  | .error e =>
    ({ success := false
       error := some e
       reply := "抱歉，系統暫時無法處理您的請求，請稍後再試或聯繫人工客服。"
       requiresHuman := true }, session)

/-! ## Human handoff scheduler (humanHandoffService.js, workingHoursService.js,
scheduledTaskService, lineHandler, routes/agent.js)

A conversation row joined with its customer's VIP level.  Timestamps are
milliseconds; status is the Prisma enum as a string. -/

structure Conversation where
  id : String
  regionId : String
  status : String := "BOT"
  priority : Nat := 3
  createdAt : Int := 0
  botHandoffAt : Option Int := none
  botHandoffReason : Option String := none
  vipLevel : Nat := 0
deriving Repr, DecidableEq

/-- getPriorityByVipLevel. -/
def getPriorityByVipLevel (vipLevel : Nat) : Nat :=
  if vipLevel ≥ 4 then 5 else if vipLevel ≥ 2 then 4 else 3

/-- handoffToHuman: set WAITING, record reason and handoff time, and set the
priority when one between 1 and 5 was supplied. -/
def handoffToHuman (conv : Conversation) (reason : String) (priority : Option Nat)
    (now : Int) : Conversation :=
  let base := { conv with
    status := "WAITING"
    botHandoffReason := some reason
    botHandoffAt := some now }
  match priority with
  | some p => if 1 ≤ p && p ≤ 5 then { base with priority := p } else base
  | none => base

/-- markOffHoursPending: set only the reason; status (and everything else,
including botHandoffAt) is left untouched. -/
def markOffHoursPending (conv : Conversation) : Conversation :=
  { conv with botHandoffReason := some "OFF_HOURS_PENDING" }

/-- A region's working-hours configuration (start/end split into the hour and
minute parsed from the HH:MM strings). -/
structure WorkingHours where
  startH : Nat := 9
  startMin : Nat := 0
  endH : Nat := 18
  endMin : Nat := 0
  workDays : List Nat := [1, 2, 3, 4, 5]
deriving Repr, DecidableEq

/-- The current wall-clock moment in a region's time zone, as the Intl
formatter yields it: weekday number (0 = Sunday) and HH:MM components. -/
structure LocalTime where
  weekday : Nat
  hour : Nat
  minute : Nat
deriving Repr, DecidableEq

/-- Comparison of two HH:MM times; on two-digit zero-padded strings the JS
string comparisons in the source coincide with this numeric order. -/
def hmLe (h1 m1 h2 m2 : Nat) : Bool := h1 < h2 || (h1 == h2 && m1 ≤ m2)

/-- isWithinWorkingHours: workday and start ≤ now ≤ end (inclusive). -/
def isWithinWorkingHours (wh : WorkingHours) (t : LocalTime) : Bool :=
  wh.workDays.contains t.weekday &&
  hmLe wh.startH wh.startMin t.hour t.minute &&
  hmLe t.hour t.minute wh.endH wh.endMin

/-- isWorkStartTime: workday and current minutes within [start, start + 5]. -/
def isWorkStartTime (wh : WorkingHours) (t : LocalTime) : Bool :=
  wh.workDays.contains t.weekday &&
  (let startMinutes := wh.startH * 60 + wh.startMin
   let currentMinutes := t.hour * 60 + t.minute
   decide (startMinutes ≤ currentMinutes) && decide (currentMinutes ≤ startMinutes + 5))

/-- The requiresHuman branch of handleLineEventWithPersistence: within
working hours hand off with the VIP-derived priority and the intent as the
reason; outside them only mark the conversation off-hours pending. -/
def lineRequiresHumanStep (conv : Conversation) (intent : Option String) (within : Bool)
    (now : Int) : Conversation :=
  if within then
    handoffToHuman conv ((jsOr intent (some "USER_REQUEST")).getD "")
      (some (getPriorityByVipLevel conv.vipLevel)) now
  else
    markOffHoursPending conv

/-- One conversation of the periodic sweep (processOffHoursPendingConversations):
for a BOT conversation marked OFF_HOURS_PENDING, promote it when the shift
just started or when hoursSinceHandoff is at least 24 — with a null
botHandoffAt counting as exactly 24 hours.  Promotion sets WAITING, the
VIP-derived priority, resets botHandoffAt and appends a system message.
Returns the updated row and the appended message contents. -/
def sweepConv (wh : WorkingHours) (t : LocalTime) (now : Int) (conv : Conversation) :
    Conversation × List String :=
  if conv.status == "BOT" && conv.botHandoffReason == some "OFF_HOURS_PENDING" then
    let forced := match conv.botHandoffAt with
      | some h => decide (now - h ≥ 24 * 60 * 60 * 1000)
      | none => true
    if isWorkStartTime wh t || forced then
      ({ conv with
          status := "WAITING"
          priority := if conv.vipLevel ≥ 4 then 5 else if conv.vipLevel ≥ 2 then 4 else 3
          botHandoffAt := some now },
       ["工作時間已開始，您的問題已加入客服佇列，請稍候。"])
    else (conv, [])
  else (conv, [])

/-- The whole sweep over the conversation table; working hours and local time
are resolved per region. -/
def processOffHoursPending (whOf : String → WorkingHours) (localOf : String → LocalTime)
    (now : Int) (db : List Conversation) : List Conversation :=
  db.map (fun conv => (sweepConv (whOf conv.regionId) (localOf conv.regionId) now conv).1)

/-- The agent queue ordering of routes/agent.js GET /queue: priority
descending, then createdAt ascending.  As a relation: a may precede b. -/
def queueOrder (a b : Conversation) : Prop :=
  b.priority < a.priority ∨ (a.priority = b.priority ∧ a.createdAt ≤ b.createdAt)

instance : DecidableRel queueOrder := fun a b =>
  inferInstanceAs (Decidable (b.priority < a.priority ∨
    (a.priority = b.priority ∧ a.createdAt ≤ b.createdAt)))

instance : IsTotal Conversation queueOrder := by
  constructor
  intro a b
  rcases Nat.lt_trichotomy a.priority b.priority with h | h | h
  · exact Or.inr (Or.inl h)
  · rcases Int.le_total a.createdAt b.createdAt with h2 | h2
    · exact Or.inl (Or.inr ⟨h, h2⟩)
    · exact Or.inr (Or.inr ⟨h.symm, h2⟩)
  · exact Or.inl (Or.inl h)

instance : IsTrans Conversation queueOrder := by
  constructor
  intro a b c hab hbc
  rcases hab with h1 | ⟨h1, h1c⟩
  · rcases hbc with h2 | ⟨h2, _⟩
    · exact Or.inl (Nat.lt_trans h2 h1)
    · exact Or.inl (h2 ▸ h1)
  · rcases hbc with h2 | ⟨h2, h2c⟩
    · exact Or.inl (h1 ▸ h2)
    · exact Or.inr ⟨h1.trans h2, h1c.trans h2c⟩

/-- GET /api/agent/queue: WAITING conversations (optionally restricted to
one region), ordered by priority descending then createdAt ascending. -/
def queueListing (db : List Conversation) (regionFilter : Option String) :
    List Conversation :=
  ((db.filter (fun c => c.status == "WAITING" &&
      (match regionFilter with | some r => c.regionId == r | none => true))).insertionSort
    queueOrder)

/-- Is a strictly before b in the getQueuePosition count: higher priority, or
same priority and strictly earlier handoff time (a null handoff time on
either side never counts). -/
def aheadOf (c conv : Conversation) : Bool :=
  conv.priority < c.priority ||
    (c.priority == conv.priority &&
      (match c.botHandoffAt, conv.botHandoffAt with
       | some x, some y => decide (x < y)
       | _, _ => false))

/-- getQueuePosition: 0 when absent or not WAITING, else one plus the number
of WAITING conversations of the same region strictly ahead by priority
descending / botHandoffAt ascending. -/
def getQueuePosition (db : List Conversation) (conversationId : String) : Nat :=
  match db.find? (fun c => c.id == conversationId) with
  | none => 0
  | some conv =>
    if conv.status ≠ "WAITING" then 0
    else
      ((db.filter (fun c =>
          c.regionId == conv.regionId && c.status == "WAITING" && aheadOf c conv)).length) + 1

/-! ## Theorems -/

/-! Inversion lemmas for the regex scanners, used by the date-consumption
claim. -/

theorem scanMP_mem {α : Type} (f : Nat → Option (Nat × α)) :
    ∀ (fuel i : Nat) (m : Nat × Nat × α), m ∈ scanMP f fuel i → f m.1 = some (m.2.1, m.2.2) := by
  intro fuel
  induction fuel with
  | zero => intro i m hm; simp [scanMP] at hm
  | succ n ih =>
    intro i m hm
    unfold scanMP at hm
    cases hf : f i with
    | some la =>
      rw [hf] at hm
      rcases List.mem_cons.mp hm with h | h
      · subst h; exact hf
      · exact ih _ m h
    | none =>
      rw [hf] at hm
      exact ih _ m hm

theorem shortG2At_spec {cs : Chars} {j b : Nat} (h : shortG2At cs j = some b) :
    (b = 1 ∨ b = 2) ∧ digAt cs j = true ∧ digAt cs (j + b) = false := by
  unfold shortG2At at h
  split_ifs at h with h1 h2
  · cases h
    simp only [Bool.and_eq_true, Bool.not_eq_true'] at h1
    exact ⟨Or.inr rfl, h1.1.1, h1.2⟩
  · cases h
    simp only [Bool.and_eq_true, Bool.not_eq_true'] at h2
    exact ⟨Or.inl rfl, h2.1, h2.2⟩

theorem shortDateAt_spec {cs : Chars} {s a b : Nat} (h : shortDateAt cs s = some (a, b)) :
    (a = 1 ∨ a = 2) ∧ (b = 1 ∨ b = 2) ∧ chIs cs (s + a) '/' = true ∧
    digAt cs (s + a + 1 + b) = false := by
  unfold shortDateAt at h
  split_ifs at h with h0 h1 h2
  · cases hg : shortG2At cs (s + 3) with
    | none => rw [hg] at h; exact Option.noConfusion h
    | some bv =>
      rw [hg] at h
      obtain ⟨ha, hb⟩ : 2 = a ∧ bv = b := by simpa using h
      subst ha hb
      obtain ⟨hb12, _, hnd⟩ := shortG2At_spec hg
      simp only [Bool.and_eq_true] at h1
      refine ⟨Or.inr rfl, hb12, h1.2, ?_⟩
      have heq : s + 2 + 1 + bv = s + 3 + bv := by omega
      rw [heq]
      exact hnd
  · cases hg : shortG2At cs (s + 2) with
    | none => rw [hg] at h; exact Option.noConfusion h
    | some bv =>
      rw [hg] at h
      obtain ⟨ha, hb⟩ : 1 = a ∧ bv = b := by simpa using h
      subst ha hb
      obtain ⟨hb12, _, hnd⟩ := shortG2At_spec hg
      simp only [Bool.and_eq_true] at h2
      refine ⟨Or.inl rfl, hb12, h2.2, ?_⟩
      have heq : s + 1 + 1 + bv = s + 2 + bv := by omega
      rw [heq]
      exact hnd

theorem fullDateAt_digits {cs : Chars} {r m d : Nat} (h : fullDateAt cs r = some (m, d)) :
    digAt cs r = true ∧ digAt cs (r + 1) = true ∧ digAt cs (r + 2) = true ∧
    digAt cs (r + 3) = true := by
  unfold fullDateAt at h
  split_ifs at h with h1 h2 h3
  · simp only [Bool.and_eq_true] at h1
    exact ⟨h1.1.1.1.1, h1.1.1.1.2, h1.1.1.2, h1.1.2⟩
  · simp only [Bool.and_eq_true] at h1
    exact ⟨h1.1.1.1.1, h1.1.1.1.2, h1.1.1.2, h1.1.2⟩

theorem chIs_not_digit {cs : Chars} {x : Nat} {c : Char} (hc : c.isDigit = false)
    (h : chIs cs x c = true) : digAt cs x = false := by
  unfold chIs at h
  unfold digAt
  cases hx : chAt cs x with
  | none => rfl
  | some ch =>
    rw [hx] at h
    simp only [Option.some.injEq, beq_iff_eq] at h
    rw [h]
    exact hc

/-- C2: extractDates on 2025/03/26 yields exactly the one full date (for any
current year), and in general every short-form match that survives the
consumed-positions check is entirely disjoint from every full-date match
range — the start-position check suffices because no surviving short match
can reach into a full match. -/
theorem c2_short_form_never_overlaps_full :
    (∀ year : Nat, extractDates year "2025/03/26"
        = [{ original := "2025/03/26", normalized := "2025/03/26" }]) ∧
    (∀ (cs : Chars), ∀ s ∈ emittedShortMatches cs, ∀ f ∈ fullDateMatches cs,
        s.1 + s.2.1 ≤ f.1 ∨ f.1 + f.2.1 ≤ s.1) := by
  constructor
  · intro year
    rfl
  · rintro cs ⟨S, l, a, b⟩ hs ⟨F, L, m, d⟩ hf
    obtain ⟨hs1, hs2⟩ := List.mem_filter.mp hs
    have hshort := scanMP_mem _ _ _ _ hs1
    have hfull := scanMP_mem _ _ _ _ hf
    simp only [Option.map_eq_some'] at hshort hfull
    obtain ⟨ab, habm, habe⟩ := hshort
    obtain ⟨md, hmdm, hmde⟩ := hfull
    obtain ⟨hl, hab⟩ : l = ab.1 + 1 + ab.2 ∧ ab = (a, b) := by
      have h1 := congrArg Prod.fst habe
      have h2 := congrArg Prod.snd habe
      exact ⟨h1.symm, h2⟩
    obtain ⟨hL, hmd⟩ : L = 6 + md.1 + md.2 ∧ md = (m, d) := by
      have h1 := congrArg Prod.fst hmde
      have h2 := congrArg Prod.snd hmde
      exact ⟨h1.symm, h2⟩
    subst hab hmd
    rw [show ((a, b) : Nat × Nat).1 = a from rfl, show ((a, b) : Nat × Nat).2 = b from rfl] at hl
    rw [show ((m, d) : Nat × Nat).1 = m from rfl, show ((m, d) : Nat × Nat).2 = d from rfl] at hL
    obtain ⟨ha12, hb12, hslash, hlook⟩ := shortDateAt_spec habm
    obtain ⟨hd0, hd1, hd2, hd3⟩ := fullDateAt_digits hmdm
    have hspan : ((F, L) : Nat × Nat) ∈ fullDateSpans cs := by
      unfold fullDateSpans
      exact List.mem_map.mpr ⟨(F, L, (m, d)), hf, rfl⟩
    have hncov : ¬(F ≤ S ∧ S < F + L) := by
      simp only [Bool.not_eq_true'] at hs2
      intro hc
      have := List.any_eq_false.mp hs2 (F, L) hspan
      simp only [decide_eq_true_eq, Bool.and_eq_true] at this
      exact this ⟨hc.1, hc.2⟩
    by_contra hcon
    push_neg at hcon
    obtain ⟨hov1, hov2⟩ := hcon
    -- The short match starts strictly before the full match and overlaps it.
    have hSF : S < F := by
      rcases Nat.lt_or_ge S F with h | h
      · exact h
      · exact absurd ⟨h, hov2⟩ hncov
    have hFless : F < S + l := hov1
    have hslashd : digAt cs (S + a) = false := chIs_not_digit (by decide) hslash
    -- Case split on where the full-match start falls inside the short match.
    rcases Nat.lt_trichotomy (F - S) a with hk | hk | hk
    · -- inside the first digit group: the slash lands on a year digit
      have ha2 : a = 2 := by
        rcases ha12 with h | h
        · omega
        · exact h
      have : S + a = F + 1 := by omega
      rw [this] at hslashd
      rw [hd1] at hslashd
      cases hslashd
    · -- exactly at the slash: the slash lands on the first year digit
      have : S + a = F := by omega
      rw [this] at hslashd
      rw [hd0] at hslashd
      cases hslashd
    · -- inside the second digit group: the lookahead lands on a year digit
      have hkub : F - S ≤ a + b := by
        rcases hb12 with h | h <;> rcases ha12 with h2 | h2 <;> omega
      have : S + a + 1 + b = F + 1 ∨ S + a + 1 + b = F + 2 := by
        rcases hb12 with h | h <;> omega
      rcases this with h | h
      · rw [h, hd1] at hlook; cases hlook
      · rw [h, hd2] at hlook; cases hlook

/-- Witness for c2 on a text holding both a full date and a separate emitted
short form: the spans (9,3) and (0,8) are disjoint. -/
theorem c2_short_form_never_overlaps_full_witness :
    ((9, 3, 1, 1) : Nat × Nat × Nat × Nat) ∈ emittedShortMatches ("2025/1/2 3/4".toList) ∧
    ((0, 8, 1, 1) : Nat × Nat × Nat × Nat) ∈ fullDateMatches ("2025/1/2 3/4".toList) ∧
    (9 + 3 ≤ 0 ∨ 0 + 8 ≤ 9) :=
  ⟨by decide, by decide,
    c2_short_form_never_overlaps_full.2 ("2025/1/2 3/4".toList) (9, 3, 1, 1) (by decide)
      (0, 8, 1, 1) (by decide)⟩

/-- C1: the extractor contract says extractAllEntities never throws on any
input.  The code violates it: in extractTaxId the condition
(match and includes 統編) or includes 統一編號 takes the branch whenever the
text contains 統一編號, even when no eight-digit match exists, and then
dereferences the null match.  Evaluating the embedded code at such an input
yields the thrown TypeError. -/
theorem c1_extract_all_entities_throws :
    extractAllEntities 2025 "統一編號" =
      Except.error "TypeError: Cannot read properties of null" := by
  rfl

/-! Stability of the score-descending sort: filtering the sorted list to one
score value yields exactly the same subsequence as filtering the input. -/

theorem filter_orderedInsert (x : FAQEntry × Nat) (l : List (FAQEntry × Nat)) (s : Nat) :
    (l.orderedInsert scoreGE x).filter (fun e => e.2 == s)
      = if x.2 == s then x :: l.filter (fun e => e.2 == s)
        else l.filter (fun e => e.2 == s) := by
  induction l with
  | nil => cases hx : (x.2 == s) <;> simp [List.orderedInsert, List.filter, hx]
  | cons y ys ih =>
    by_cases hr : scoreGE x y
    · rw [List.orderedInsert, if_pos hr]
      by_cases hx : (x.2 == s) = true <;> simp [List.filter, hx]
    · rw [List.orderedInsert, if_neg hr]
      have hlt : x.2 < y.2 := by
        unfold scoreGE at hr
        omega
      by_cases hx : (x.2 == s) = true
      · have hy : (y.2 == s) = false := by
          have hxs : x.2 = s := by simpa using hx
          simp only [beq_eq_false_iff_ne, ne_eq]
          omega
        simp only [List.filter, hy, ih, hx, if_pos]
      · simp only [List.filter, ih, hx, Bool.false_eq_true, if_neg]
        cases hy : (y.2 == s) <;> simp

theorem filter_insertionSort (l : List (FAQEntry × Nat)) (s : Nat) :
    (l.insertionSort scoreGE).filter (fun e => e.2 == s) = l.filter (fun e => e.2 == s) := by
  induction l with
  | nil => rfl
  | cons x xs ih =>
    rw [List.insertionSort, filter_orderedInsert]
    by_cases hx : (x.2 == s) = true
    · simp only [hx, if_pos, ih, List.filter, hx]
    · simp only [hx, Bool.false_eq_true, if_neg, ih, List.filter]
      simp [hx]

/-- C3: searchFAQ is deterministic (it is a pure function of corpus, query
and maxResults), every returned entry scored strictly positive, the result
is sorted by score descending, holds at most maxResults entries, and within
any one score value the returned entries form a prefix of the corpus-order
subsequence of that score — ties keep original corpus order. -/
theorem c3_searchFAQ_ranking :
    (∀ (data : List FAQEntry) (q : String) (n : Nat),
        searchFAQ data q n = searchFAQ data q n) ∧
    (∀ (data : List FAQEntry) (q : String) (n : Nat),
        ∀ e ∈ searchFAQ data q n, 0 < e.2) ∧
    (∀ (data : List FAQEntry) (q : String) (n : Nat),
        List.Sorted scoreGE (searchFAQ data q n)) ∧
    (∀ (data : List FAQEntry) (q : String) (n : Nat),
        (searchFAQ data q n).length ≤ n) ∧
    (∀ (data : List FAQEntry) (q : String) (n : Nat) (s : Nat),
        (searchFAQ data q n).filter (fun e => e.2 == s) <+:
          ((data.map (fun f => (f, scoreFAQ f q))).filter
              (fun fs => 0 < fs.2)).filter (fun e => e.2 == s)) := by
  refine ⟨fun _ _ _ => rfl, ?_, ?_, ?_, ?_⟩
  · intro data q n e he
    unfold searchFAQ at he
    split_ifs at he with hempty
    · simp at he
    · have h1 : e ∈ (((data.map (fun f => (f, scoreFAQ f q))).filter
          (fun fs => 0 < fs.2)).insertionSort scoreGE) := List.take_subset _ _ he
      have h2 := (List.perm_insertionSort scoreGE _).mem_iff.mp h1
      have := List.of_mem_filter h2
      simpa using this
  · intro data q n
    unfold searchFAQ
    split_ifs with hempty
    · simp
    · exact ((List.sorted_insertionSort scoreGE _).sublist (List.take_sublist _ _))
  · intro data q n
    unfold searchFAQ
    split_ifs with hempty
    · simp
    · exact List.length_take_le _ _
  · intro data q n s
    unfold searchFAQ
    split_ifs with hempty
    · simp
    · calc ((((data.map (fun f => (f, scoreFAQ f q))).filter
            (fun fs => 0 < fs.2)).insertionSort scoreGE).take n).filter (fun e => e.2 == s)
          <+: (((data.map (fun f => (f, scoreFAQ f q))).filter
            (fun fs => 0 < fs.2)).insertionSort scoreGE).filter (fun e => e.2 == s) :=
            List.IsPrefix.filter _ (List.take_prefix _ _)
        _ = ((data.map (fun f => (f, scoreFAQ f q))).filter
            (fun fs => 0 < fs.2)).filter (fun e => e.2 == s) := filter_insertionSort _ _

/-- Witness for c3 on a one-entry corpus whose question equals the query:
the entry is returned and its score is strictly positive. -/
theorem c3_searchFAQ_ranking_witness :
    0 < ((FAQEntry.mk "1" "其他" "如何改票" "請聯繫客服" ["改票"], 15) : FAQEntry × Nat).2 :=
  c3_searchFAQ_ranking.2.1 [FAQEntry.mk "1" "其他" "如何改票" "請聯繫客服" ["改票"]]
    "如何改票" 3 (FAQEntry.mk "1" "其他" "如何改票" "請聯繫客服" ["改票"], 15) (by decide)

/-! Projection lemmas for handleMessage, cutting at the classifier call. -/

theorem handleMessage_cont_eq {env : ClassifierEnv} {faq : List FAQEntry} {rand year : Nat}
    {now : Int} {msg : String} {s : Session} {c : Continuation}
    (hc : checkIntentContinuation s (detectInfoProviding msg) now = some c) :
    handleMessage env faq rand year now msg s =
      (match handleTurnWith faq rand year now msg s (contIntentResult c) true with
       | .ok r => r
       | .error e =>
         ({ success := false, error := some e,
            reply := "抱歉，系統暫時無法處理您的請求，請稍後再試或聯繫人工客服。",
            requiresHuman := true }, s)) := by
  unfold handleMessage handleMessageBody
  dsimp only
  rw [hc]

theorem handleTurnWith_proj {faq : List FAQEntry} {rand year : Nat} {now : Int}
    {msg : String} {s : Session} {ir : IntentResult} {cont : Bool} {ae : AllEntities}
    (hE : extractAllEntities year msg = Except.ok ae) :
    ∃ r, handleTurnWith faq rand year now msg s ir cont = Except.ok r ∧
      r.1.isContinuation = cont ∧ r.1.intent = ir.intent ∧ r.1.success = true := by
  unfold handleTurnWith
  rw [hE]
  exact ⟨_, rfl, rfl, rfl, rfl⟩

theorem handleMessage_fresh_proj {gen : String → List HistMsg → Except String (Option Classification)}
    {faq : List FAQEntry} {rand year : Nat} {now : Int} {msg : String} {s : Session}
    {cl : Classification} {ae : AllEntities}
    (hc : checkIntentContinuation s (detectInfoProviding msg) now = none)
    (hg : gen msg s.history = Except.ok (some cl))
    (hE : extractAllEntities year msg = Except.ok ae) :
    (handleMessage (some gen) faq rand year now msg s).1.isContinuation = false ∧
    (handleMessage (some gen) faq rand year now msg s).1.intent = cl.intent ∧
    (handleMessage (some gen) faq rand year now msg s).1.success = true := by
  unfold handleMessage handleMessageBody
  dsimp only
  rw [hc]
  unfold classifyIntent
  dsimp only
  rw [hg]
  unfold handleTurnWith
  rw [hE]
  exact ⟨rfl, rfl, rfl⟩

/-- C4: with an open dialogue state awaiting DATE, the message 3/26 one
minute after lastAskedAt is a continuation — the stored intent is reused and
the classifier oracle is never consulted (the turn result is the same under
any two oracles); ten minutes after lastAskedAt the continuation check
returns nothing, the turn is not a continuation, and the intent adopted is
whatever the classifier returns. -/
theorem c4_continuation_one_minute_expiry_ten (env1 env2 : ClassifierEnv)
    (faq : List FAQEntry) (rand year : Nat) (s : Session) (st : ConvState)
    (gen : String → List HistMsg → Except String (Option Classification))
    (cl : Classification) (ae : AllEntities)
    (hstate : s.conversationState = some st)
    (hintent : st.currentIntent ≠ "")
    (hawait : st.awaitingInfo.contains "DATE" = true)
    (hE : extractAllEntities year "3/26" = Except.ok ae)
    (hg : gen "3/26" s.history = Except.ok (some cl)) :
    (checkIntentContinuation s (detectInfoProviding "3/26") (st.lastAskedAt + 60000)
        = some { intent := st.currentIntent, matchedTypes := ["DATE"] }) ∧
    ((handleMessage env1 faq rand year (st.lastAskedAt + 60000) "3/26" s).1.isContinuation
        = true) ∧
    ((handleMessage env1 faq rand year (st.lastAskedAt + 60000) "3/26" s).1.intent
        = st.currentIntent) ∧
    (handleMessage env1 faq rand year (st.lastAskedAt + 60000) "3/26" s
        = handleMessage env2 faq rand year (st.lastAskedAt + 60000) "3/26" s) ∧
    (checkIntentContinuation s (detectInfoProviding "3/26") (st.lastAskedAt + 600000)
        = none) ∧
    ((handleMessage (some gen) faq rand year (st.lastAskedAt + 600000) "3/26" s).1.isContinuation
        = false) ∧
    ((handleMessage (some gen) faq rand year (st.lastAskedAt + 600000) "3/26" s).1.intent
        = cl.intent) := by
  have hdet : detectInfoProviding "3/26"
      = { isInfoProviding := true, detectedTypes := ["DATE"], isShort := true } := by decide
  have hne : ¬((st.currentIntent == "") = true) := by
    simpa using hintent
  have hmem : "DATE" ∈ st.awaitingInfo := by simpa using hawait
  have hnempty : ¬(st.awaitingInfo.isEmpty = true) := by
    intro h
    rw [List.isEmpty_iff] at h
    rw [h] at hmem
    cases hmem
  have hcont1 : checkIntentContinuation s (detectInfoProviding "3/26")
      (st.lastAskedAt + 60000) = some { intent := st.currentIntent, matchedTypes := ["DATE"] } := by
    simp only [checkIntentContinuation, hstate, hdet]
    rw [if_neg hne, if_neg (by omega), if_neg hnempty]
    simp [hawait]
    exact ⟨Or.inl hmem, hmem⟩
  have hcont2 : checkIntentContinuation s (detectInfoProviding "3/26")
      (st.lastAskedAt + 600000) = none := by
    simp only [checkIntentContinuation, hstate]
    rw [if_neg hne, if_pos (by omega)]
  obtain ⟨r1, hr1, hr1c, hr1i, _⟩ := @handleTurnWith_proj faq rand year
    (st.lastAskedAt + 60000) "3/26" s
    (contIntentResult { intent := st.currentIntent, matchedTypes := ["DATE"] }) true _ hE
  obtain ⟨hf1, hf2, _⟩ := @handleMessage_fresh_proj gen faq rand year
    (st.lastAskedAt + 600000) "3/26" s cl _ hcont2 hg hE
  refine ⟨hcont1, ?_, ?_, ?_, hcont2, hf1, hf2⟩
  · rw [handleMessage_cont_eq hcont1, hr1]
    exact hr1c
  · rw [handleMessage_cont_eq hcont1, hr1]
    exact hr1i
  · rw [handleMessage_cont_eq hcont1, handleMessage_cont_eq hcont1]

/-- Witness for c4 at a concrete session awaiting DATE since time 0: one
minute later 3/26 continues, ten minutes later it does not. -/
theorem c4_continuation_one_minute_expiry_ten_witness :
    (handleMessage none [] 0 2025 (0 + 60000) "3/26"
        { conversationState := some (ConvState.mk "TICKET_BOOK" ["DATE"] {} "" 0) }).1.isContinuation
      = true ∧
    (handleMessage (some (fun _ _ => Except.ok (some { intent := "FLIGHT_QUERY" }))) [] 0 2025
        (0 + 600000) "3/26"
        { conversationState := some (ConvState.mk "TICKET_BOOK" ["DATE"] {} "" 0) }).1.isContinuation
      = false := by
  have h := c4_continuation_one_minute_expiry_ten none
    (some (fun _ _ => Except.ok (some { intent := "FLIGHT_QUERY" }))) [] 0 2025
    { conversationState := some (ConvState.mk "TICKET_BOOK" ["DATE"] {} "" 0) }
    (ConvState.mk "TICKET_BOOK" ["DATE"] {} "" 0)
    (fun _ _ => Except.ok (some { intent := "FLIGHT_QUERY" }))
    { intent := "FLIGHT_QUERY" }
    (AllEntities.mk [DateEnt.mk "3/26" "2025/03/26"] [] [] [] none none none none none [])
    rfl (by decide) (by decide) rfl rfl
  exact ⟨h.2.1, h.2.2.2.2.2.1⟩

theorem handleMessage_unknown_faq {env : ClassifierEnv} {faq : List FAQEntry}
    {rand year : Nat} {now : Int} {msg : String} {s : Session} {ae : AllEntities}
    {ir : IntentResult}
    (hc : checkIntentContinuation s (detectInfoProviding msg) now = none)
    (hio : classifyIntent env msg s.history = Except.ok ir)
    (hir : ir.intent = "UNKNOWN")
    (hirh : ir.requiresHuman = false)
    (hE : extractAllEntities year msg = Except.ok ae) :
    (handleMessage env faq rand year now msg s).1.success = true ∧
    (handleMessage env faq rand year now msg s).1.intent = "UNKNOWN" ∧
    (handleMessage env faq rand year now msg s).1.requiresHuman = false ∧
    (handleMessage env faq rand year now msg s).1.reply =
      (match searchFAQ faq msg 3 with
       | best :: _ => best.1.answer
       | [] => "抱歉，我不太確定您的需求。您可以：\n\n1. 訂票/改票/退票\n2. 查詢航班或票價"
           ++ "\n3. 簽證諮詢\n4. 付款或索取收據\n\n或者，請直接描述您的需求，我會盡力協助您。"
           ++ "\n\n如需人工服務，請告訴我「找真人」。") := by
  unfold handleMessage handleMessageBody
  dsimp only
  rw [hc, hio]
  unfold handleTurnWith
  rw [hE]
  simp only [Bind.bind, Except.bind]
  rw [hir, hirh]
  have hd : ∀ (ents : Entities) (ctx : Session) (cont : Bool),
      dispatchIntent faq rand "UNKNOWN" msg ents ctx cont = handleUnknown faq msg :=
    fun _ _ _ => rfl
  rw [hd]
  unfold handleUnknown
  cases hs : searchFAQ faq msg 3 with
  | nil => exact ⟨rfl, rfl, rfl, rfl⟩
  | cons best rest => exact ⟨rfl, rfl, rfl, rfl⟩

/-- C6 (amended): a classifier-adapter failure (internal error or an
unparsable payload) is not propagated — the turn succeeds as UNKNOWN intent,
which answers with the best FAQ match when one exists and otherwise with the
generic capability menu, but that generic fallback does not escalate:
requiresHuman is false.  A throw that classifyIntent does not catch (the
uninitialized-model throw) is caught by handleMessage's catch-all, which
yields the safe default reply with requiresHuman true. -/
theorem c6_classifier_failure_downgrades_to_unknown
    (gen : String → List HistMsg → Except String (Option Classification))
    (faq : List FAQEntry) (rand year : Nat) (now : Int) (msg : String) (s : Session)
    (ae : AllEntities) (e : String)
    (hs0 : s.conversationState = none)
    (hE : extractAllEntities year msg = Except.ok ae) :
    ((gen msg s.history = Except.error e ∨ gen msg s.history = Except.ok none) →
      (handleMessage (some gen) faq rand year now msg s).1.success = true ∧
      (handleMessage (some gen) faq rand year now msg s).1.intent = "UNKNOWN" ∧
      (handleMessage (some gen) faq rand year now msg s).1.requiresHuman = false ∧
      (handleMessage (some gen) faq rand year now msg s).1.reply =
        (match searchFAQ faq msg 3 with
         | best :: _ => best.1.answer
         | [] => "抱歉，我不太確定您的需求。您可以：\n\n1. 訂票/改票/退票\n2. 查詢航班或票價"
             ++ "\n3. 簽證諮詢\n4. 付款或索取收據\n\n或者，請直接描述您的需求，我會盡力協助您。"
             ++ "\n\n如需人工服務，請告訴我「找真人」。")) ∧
    ((handleMessage none faq rand year now msg s).1.success = false ∧
     (handleMessage none faq rand year now msg s).1.requiresHuman = true ∧
     (handleMessage none faq rand year now msg s).1.reply =
       "抱歉，系統暫時無法處理您的請求，請稍後再試或聯繫人工客服。") := by
  have hc : checkIntentContinuation s (detectInfoProviding msg) now = none := by
    simp only [checkIntentContinuation, hs0]
  constructor
  · intro hfail
    have hio : ∃ ir : IntentResult,
        classifyIntent (some gen) msg s.history = Except.ok ir ∧
        ir.intent = "UNKNOWN" ∧ ir.requiresHuman = false := by
      rcases hfail with hf | hf
      · refine ⟨{ success := false, intent := "UNKNOWN", error := some e }, ?_, rfl, rfl⟩
        unfold classifyIntent
        dsimp only
        rw [hf]
      · refine ⟨{ success := false, intent := "UNKNOWN", error := some "無法解析分類結果" },
          ?_, rfl, rfl⟩
        unfold classifyIntent
        dsimp only
        rw [hf]
    obtain ⟨ir, hio, hir, hirh⟩ := hio
    exact handleMessage_unknown_faq hc hio hir hirh hE
  · refine ⟨?_, ?_, ?_⟩ <;>
      (unfold handleMessage handleMessageBody
       dsimp only
       rw [hc]
       rfl)

/-- Witness for c6 at a concrete unparsable-payload oracle and at the
uninitialized classifier. -/
theorem c6_classifier_failure_downgrades_to_unknown_witness :
    (handleMessage (some (fun _ _ => Except.ok none)) [] 0 2025 0 "測試查詢"
        {}).1.requiresHuman = false ∧
    (handleMessage none [] 0 2025 0 "測試查詢" {}).1.requiresHuman = true := by
  have h := c6_classifier_failure_downgrades_to_unknown (fun _ _ => Except.ok none) [] 0 2025 0
    "測試查詢" {} (AllEntities.mk [] [] [] [] none none none none none []) "x" rfl rfl
  exact ⟨(h.1 (Or.inr rfl)).2.2.1, h.2.2.1⟩

/-- C6 counterexample: with an erroring classifier, an empty FAQ corpus and
a message matching nothing, the claim says the generic fallback escalates to
a human; the code returns it with requiresHuman false. -/
theorem c6_counterexample :
    (handleMessage (some (fun _ _ => Except.error "oracle down")) [] 0 2025 0 "測試訊息"
        {}).1.intent = "UNKNOWN" ∧
    (handleMessage (some (fun _ _ => Except.error "oracle down")) [] 0 2025 0 "測試訊息"
        {}).1.reply
      = "抱歉，我不太確定您的需求。您可以：\n\n1. 訂票/改票/退票\n2. 查詢航班或票價"
          ++ "\n3. 簽證諮詢\n4. 付款或索取收據\n\n或者，請直接描述您的需求，我會盡力協助您。"
          ++ "\n\n如需人工服務，請告訴我「找真人」。" ∧
    (handleMessage (some (fun _ _ => Except.error "oracle down")) [] 0 2025 0 "測試訊息"
        {}).1.requiresHuman = false := by
  exact ⟨rfl, rfl, rfl⟩

/-- C7 counterexample: two WAITING conversations with equal priority whose
creation order disagrees with their handoff order.  The agent queue endpoint
sorts ties by createdAt ascending, so the listing puts the later-handed-off
conversation first, against the claimed handoff-timestamp tie-break; and
getQueuePosition (which does use botHandoffAt) then assigns position 2 to
the conversation the listing shows first. -/
theorem c7_counterexample :
    queueListing [Conversation.mk "c1" "r" "WAITING" 3 5 (some 1) none 0,
                  Conversation.mk "c2" "r" "WAITING" 3 3 (some 2) none 0] none
      = [Conversation.mk "c2" "r" "WAITING" 3 3 (some 2) none 0,
         Conversation.mk "c1" "r" "WAITING" 3 5 (some 1) none 0] ∧
    getQueuePosition [Conversation.mk "c1" "r" "WAITING" 3 5 (some 1) none 0,
                      Conversation.mk "c2" "r" "WAITING" 3 3 (some 2) none 0] "c2" = 2 := by
  exact ⟨by decide, by decide⟩

/-- C7 (amended): the agent queue listing is the WAITING conversations of
the requested scope ordered by priority descending with ties broken by
createdAt ascending (not by handoff timestamp); getQueuePosition returns one
plus the number of WAITING conversations of the same region with strictly
higher priority or equal priority and strictly earlier botHandoffAt.  On the
claimed [3,5,3] scenario whose creation order agrees with the handoff order
t0 < t1 < t2, the listing is [priority-5, 3-at-t0, 3-at-t2] and the
positions are 2, 1, 3. -/
theorem c7_queue_order_and_position :
    (∀ (db : List Conversation) (rf : Option String),
        List.Sorted queueOrder (queueListing db rf)) ∧
    (∀ (db : List Conversation) (rf : Option String),
        (queueListing db rf).Perm (db.filter (fun c => c.status == "WAITING" &&
          (match rf with | some r => c.regionId == r | none => true)))) ∧
    (queueListing [Conversation.mk "a" "r" "WAITING" 3 0 (some 10) none 0,
                   Conversation.mk "b" "r" "WAITING" 5 1 (some 11) none 0,
                   Conversation.mk "c" "r" "WAITING" 3 2 (some 12) none 0] none
       = [Conversation.mk "b" "r" "WAITING" 5 1 (some 11) none 0,
          Conversation.mk "a" "r" "WAITING" 3 0 (some 10) none 0,
          Conversation.mk "c" "r" "WAITING" 3 2 (some 12) none 0] ∧
     getQueuePosition [Conversation.mk "a" "r" "WAITING" 3 0 (some 10) none 0,
                       Conversation.mk "b" "r" "WAITING" 5 1 (some 11) none 0,
                       Conversation.mk "c" "r" "WAITING" 3 2 (some 12) none 0] "a" = 2 ∧
     getQueuePosition [Conversation.mk "a" "r" "WAITING" 3 0 (some 10) none 0,
                       Conversation.mk "b" "r" "WAITING" 5 1 (some 11) none 0,
                       Conversation.mk "c" "r" "WAITING" 3 2 (some 12) none 0] "b" = 1 ∧
     getQueuePosition [Conversation.mk "a" "r" "WAITING" 3 0 (some 10) none 0,
                       Conversation.mk "b" "r" "WAITING" 5 1 (some 11) none 0,
                       Conversation.mk "c" "r" "WAITING" 3 2 (some 12) none 0] "c" = 3) := by
  refine ⟨?_, ?_, by decide, by decide, by decide, by decide⟩
  · intro db rf
    exact List.sorted_insertionSort queueOrder _
  · intro db rf
    exact List.perm_insertionSort queueOrder _

/-- C5 counterexample: a booking-handler invocation with date, destination
and passenger count all present and no confirmation received, but carrying a
booking reference, resolves immediately (conversationComplete, empty
awaitingInfo) instead of the claimed awaitingInfo = [CONFIRMATION]. -/
theorem c5_counterexample :
    (handleTicketBook "請開票"
        { date := some "2025/03/26", destination := some "東京", passengers := some "2",
          booking_ref := some "BTE2500208" } {} false).conversationComplete = true ∧
    (handleTicketBook "請開票"
        { date := some "2025/03/26", destination := some "東京", passengers := some "2",
          booking_ref := some "BTE2500208" } {} false).awaitingInfo = [] ∧
    (handleTicketBook "請開票"
        { date := some "2025/03/26", destination := some "東京", passengers := some "2",
          booking_ref := some "BTE2500208" } {} false).requiresHuman = true := by
  exact ⟨rfl, rfl, rfl⟩

/-- C5 (amended): (1) a booking-handler invocation finding date, destination
and passenger count present, with no booking reference and no confirmation
received, asks for confirmation — awaitingInfo = [CONFIRMATION] — and does
not resolve; (2) the four turns 我想訂去東京的機票, 3/26, 2位, 確認 (with the
classifier returning TICKET_BOOK with destination 東京 on the first turn)
end with requiresHuman true, a successful turn, and the dialogue state
cleared. -/
theorem c5_booking_confirmation_gate_and_flow :
    (∀ (message : String) (entities : Entities) (context : Session) (isCont : Bool),
      truthy (jsOr entities.date entities.DATE) = true →
      truthy (jsOr entities.destination entities.DESTINATION) = true →
      truthy (jsOr entities.passengers entities.PASSENGERS) = true →
      truthy (jsOr entities.booking_ref entities.BOOKING_REF) = false →
      (isCont && (incl message "確認" || incl message "確定"
          || isAffirmToken (jsTrim message))) = false →
      (handleTicketBook message entities context isCont).awaitingInfo = ["CONFIRMATION"] ∧
      (handleTicketBook message entities context isCont).conversationComplete = false ∧
      (handleTicketBook message entities context isCont).requiresHuman = false) ∧
    (∀ (gen : String → List HistMsg → Except String (Option Classification))
       (faq : List FAQEntry) (rand : Nat) (cl : Classification),
      gen "我想訂去東京的機票" [] = Except.ok (some cl) →
      cl.intent = "TICKET_BOOK" →
      cl.entities = some { DESTINATION := some "東京" } →
      (handleMessage (some gen) faq rand 2025 180000 "確認"
        (handleMessage (some gen) faq rand 2025 120000 "2位"
          (handleMessage (some gen) faq rand 2025 60000 "3/26"
            (handleMessage (some gen) faq rand 2025 0 "我想訂去東京的機票"
              ({} : Session)).2).2).2).1.requiresHuman = true ∧
      (handleMessage (some gen) faq rand 2025 180000 "確認"
        (handleMessage (some gen) faq rand 2025 120000 "2位"
          (handleMessage (some gen) faq rand 2025 60000 "3/26"
            (handleMessage (some gen) faq rand 2025 0 "我想訂去東京的機票"
              ({} : Session)).2).2).2).1.success = true ∧
      (handleMessage (some gen) faq rand 2025 180000 "確認"
        (handleMessage (some gen) faq rand 2025 120000 "2位"
          (handleMessage (some gen) faq rand 2025 60000 "3/26"
            (handleMessage (some gen) faq rand 2025 0 "我想訂去東京的機票"
              ({} : Session)).2).2).2).2.conversationState = none) := by
  constructor
  · intro message entities context isCont hdt hds hpx hbr hcf
    simp only [handleTicketBook, hcf, hdt, hds, hpx, hbr, Bool.false_and, Bool.and_false,
      Bool.false_eq_true, if_false, if_true, ne_eq, List.append_nil, List.nil_append]
    exact ⟨rfl, rfl, rfl⟩
  · intro gen faq rand cl hg hint hent
    have h1 : (handleMessage (some gen) faq rand 2025 0 "我想訂去東京的機票"
        ({} : Session)).2 =
        { entities := { DESTINATION := some "東京" }
          conversationState := some (ConvState.mk "TICKET_BOOK" ["DATE", "PASSENGERS"]
            { DESTINATION := some "東京" } "好的，我來協助您訂票。請提供出發日期和旅客人數？" 0)
          history := [{ role := "user", content := "我想訂去東京的機票" },
                      { role := "assistant",
                        content := "好的，我來協助您訂票。請提供出發日期和旅客人數？" }] } := by
      unfold handleMessage handleMessageBody
      dsimp only
      rw [show checkIntentContinuation {} (detectInfoProviding "我想訂去東京的機票") 0
          = none from rfl]
      unfold classifyIntent
      dsimp only
      rw [hg]
      dsimp only
      rw [hint, hent]
      rfl
    rw [h1]
    exact ⟨rfl, rfl, rfl⟩

/-- Witness for c5 at a concrete non-confirmation invocation with the three
slots filled and at a concrete classifier oracle for the four-turn flow. -/
theorem c5_booking_confirmation_gate_and_flow_witness :
    (handleTicketBook "去東京"
        { date := some "2025/03/26", destination := some "東京", passengers := some "2" }
        {} false).awaitingInfo = ["CONFIRMATION"] ∧
    (handleMessage (some (fun _ _ => Except.ok (some
        ({ intent := "TICKET_BOOK", entities := some { DESTINATION := some "東京" } }
          : Classification)))) [] 0 2025 180000 "確認"
      (handleMessage (some (fun _ _ => Except.ok (some
        ({ intent := "TICKET_BOOK", entities := some { DESTINATION := some "東京" } }
          : Classification)))) [] 0 2025 120000 "2位"
        (handleMessage (some (fun _ _ => Except.ok (some
          ({ intent := "TICKET_BOOK", entities := some { DESTINATION := some "東京" } }
            : Classification)))) [] 0 2025 60000 "3/26"
          (handleMessage (some (fun _ _ => Except.ok (some
            ({ intent := "TICKET_BOOK", entities := some { DESTINATION := some "東京" } }
              : Classification)))) [] 0 2025 0 "我想訂去東京的機票"
            ({} : Session)).2).2).2).1.requiresHuman = true :=
  ⟨(c5_booking_confirmation_gate_and_flow.1 "去東京"
      { date := some "2025/03/26", destination := some "東京", passengers := some "2" }
      {} false rfl rfl rfl rfl (by decide)).1,
   (c5_booking_confirmation_gate_and_flow.2
      (fun _ _ => Except.ok (some
        ({ intent := "TICKET_BOOK", entities := some { DESTINATION := some "東京" } }
          : Classification))) [] 0
      { intent := "TICKET_BOOK", entities := some { DESTINATION := some "東京" } }
      rfl rfl rfl).1⟩

/-- C8: when a handler requires a human and the moment is outside the
region's working hours, only the off-hours marker is written and the status
stays BOT; within hours the conversation becomes WAITING with the
VIP-derived priority (5 for vip at least 4, 4 for at least 2, else 3) and
the handoff timestamp and reason recorded. -/
theorem c8_working_hours_gating (conv : Conversation) (intent : Option String)
    (wh : WorkingHours) (t : LocalTime) (now : Int) (hb : conv.status = "BOT") :
    (isWithinWorkingHours wh t = false →
      lineRequiresHumanStep conv intent (isWithinWorkingHours wh t) now
          = { conv with botHandoffReason := some "OFF_HOURS_PENDING" } ∧
        (lineRequiresHumanStep conv intent (isWithinWorkingHours wh t) now).status = "BOT") ∧
    (isWithinWorkingHours wh t = true →
      lineRequiresHumanStep conv intent (isWithinWorkingHours wh t) now
          = { conv with
              status := "WAITING"
              priority := if conv.vipLevel ≥ 4 then 5
                else if conv.vipLevel ≥ 2 then 4 else 3
              botHandoffAt := some now
              botHandoffReason := some ((jsOr intent (some "USER_REQUEST")).getD "") }) := by
  constructor
  · intro h
    rw [h]
    unfold lineRequiresHumanStep markOffHoursPending
    simp only [if_neg Bool.false_ne_true]
    exact ⟨by simp, hb⟩
  · intro h
    rw [h]
    unfold lineRequiresHumanStep handoffToHuman getPriorityByVipLevel
    simp only [if_pos rfl]
    split_ifs <;> simp_all

/-- Witness for c8 at a concrete conversation: Saturday 10:00 is outside the
default working hours (status stays BOT), Monday 10:00 is within (the
priority becomes the VIP-derived 5 for a level-4 customer). -/
theorem c8_working_hours_gating_witness :
    (lineRequiresHumanStep (Conversation.mk "c0" "r0" "BOT" 3 0 none none 4) (some "TICKET_BOOK")
        (isWithinWorkingHours {} ⟨6, 10, 0⟩) 1000).status = "BOT" ∧
    (lineRequiresHumanStep (Conversation.mk "c0" "r0" "BOT" 3 0 none none 4) (some "TICKET_BOOK")
        (isWithinWorkingHours {} ⟨1, 10, 0⟩) 1000)
      = { Conversation.mk "c0" "r0" "BOT" 3 0 none none 4 with
          status := "WAITING"
          priority := 5
          botHandoffAt := some 1000
          botHandoffReason := some "TICKET_BOOK" } := by
  constructor
  · exact ((c8_working_hours_gating (Conversation.mk "c0" "r0" "BOT" 3 0 none none 4)
      (some "TICKET_BOOK") {} ⟨6, 10, 0⟩ 1000 rfl).1 (by decide)).2
  · have h := (c8_working_hours_gating (Conversation.mk "c0" "r0" "BOT" 3 0 none none 4)
      (some "TICKET_BOOK") {} ⟨1, 10, 0⟩ 1000 rfl).2 (by decide)
    rw [h]
    rfl

/-- C10 (implicit): markOffHoursPending writes only the reason — the status
and the handoff timestamp are untouched — and the sweep treats a null
botHandoffAt as 24 elapsed hours, so a BOT conversation marked off-hours
pending with no prior handoff timestamp is promoted to WAITING by the very
next sweep, whatever the current local time. -/
theorem c10_mark_without_timestamp_promotes_next_sweep (conv : Conversation)
    (wh : WorkingHours) (t : LocalTime) (now : Int) :
    (markOffHoursPending conv).botHandoffReason = some "OFF_HOURS_PENDING" ∧
    (markOffHoursPending conv).botHandoffAt = conv.botHandoffAt ∧
    (markOffHoursPending conv).status = conv.status ∧
    (conv.status = "BOT" → conv.botHandoffAt = none →
      (sweepConv wh t now (markOffHoursPending conv)).1.status = "WAITING") := by
  refine ⟨rfl, rfl, rfl, ?_⟩
  intro hb hn
  unfold sweepConv markOffHoursPending
  simp [hb, hn]

/-- Witness for c10 at a concrete conversation, configuration and time. -/
theorem c10_witness :
    (Conversation.mk "c1" "r1" "BOT" 3 0 none none 0).status = "BOT" ∧
    (Conversation.mk "c1" "r1" "BOT" 3 0 none none 0).botHandoffAt = none ∧
    (sweepConv {} ⟨6, 20, 0⟩ 3600000
      (markOffHoursPending (Conversation.mk "c1" "r1" "BOT" 3 0 none none 0))).1.status
      = "WAITING" :=
  ⟨rfl, rfl,
    (c10_mark_without_timestamp_promotes_next_sweep
      (Conversation.mk "c1" "r1" "BOT" 3 0 none none 0) {} ⟨6, 20, 0⟩ 3600000).2.2.2
      rfl rfl⟩

/-- C9 counterexample: the claim says an OFF_HOURS_PENDING conversation is
promoted exactly when the local time is in the start-of-shift window or more
than 24 hours have passed since the mark was set.  Here the mark was just
set (the sweep runs one hour later), Sunday 20:00 is in no start window —
yet the sweep promotes the conversation, because its botHandoffAt is null
and the code treats that as 24 elapsed hours. -/
theorem c9_counterexample :
    isWorkStartTime {} ⟨0, 20, 0⟩ = false ∧
    (sweepConv {} ⟨0, 20, 0⟩ 3600000
        (markOffHoursPending (Conversation.mk "c1" "r1" "BOT" 3 0 none none 2))).1.status
      = "WAITING" := by
  exact ⟨rfl, rfl⟩

/-- C9 (amended): the sweep promotes a BOT conversation marked
OFF_HOURS_PENDING exactly when the local time is in the five-minute
start-of-shift window on a workday, or botHandoffAt is null, or at least 24
hours have passed since botHandoffAt; promotion installs the VIP-derived
priority and appends the synthetic system message, and otherwise the row is
untouched. -/
theorem c9_sweep_promotion_rule (wh : WorkingHours) (t : LocalTime) (now : Int)
    (conv : Conversation) (hb : conv.status = "BOT")
    (hr : conv.botHandoffReason = some "OFF_HOURS_PENDING") :
    ((sweepConv wh t now conv).1.status = "WAITING" ↔
      isWorkStartTime wh t = true ∨ conv.botHandoffAt = none ∨
        ∃ h, conv.botHandoffAt = some h ∧ now - h ≥ 24 * 60 * 60 * 1000) ∧
    ((sweepConv wh t now conv).1.status = "WAITING" →
      (sweepConv wh t now conv).1.priority = getPriorityByVipLevel conv.vipLevel ∧
      (sweepConv wh t now conv).2 = ["工作時間已開始，您的問題已加入客服佇列，請稍候。"]) ∧
    ((sweepConv wh t now conv).1.status ≠ "WAITING" → (sweepConv wh t now conv).1 = conv) := by
  unfold sweepConv
  rw [hb, hr]
  simp only [beq_self_eq_true, Bool.and_self, if_pos]
  rcases hA : conv.botHandoffAt with _ | h
  · simp [getPriorityByVipLevel]
  · by_cases hW : isWorkStartTime wh t
    · simp [hW, getPriorityByVipLevel]
    · by_cases hF : (86400000 : Int) ≤ now - h
      · simp only [hW, Bool.false_or, decide_eq_true_eq]
        rw [if_pos (by omega)]
        simp [getPriorityByVipLevel]
        omega
      · simp only [hW, Bool.false_or, decide_eq_true_eq]
        rw [if_neg (by omega)]
        simp [hb, hW]
        omega

/-- Witness for c9_sweep_promotion_rule at a concrete stale conversation:
botHandoffAt 25 hours in the past forces promotion outside any window. -/
theorem c9_sweep_promotion_rule_witness :
    (Conversation.mk "c2" "r1" "BOT" 3 0 (some 0) (some "OFF_HOURS_PENDING") 0).status = "BOT" ∧
    (sweepConv {} ⟨0, 20, 0⟩ 90000000
        (Conversation.mk "c2" "r1" "BOT" 3 0 (some 0) (some "OFF_HOURS_PENDING") 0)).1.status
      = "WAITING" := by
  refine ⟨rfl, ?_⟩
  exact ((c9_sweep_promotion_rule {} ⟨0, 20, 0⟩ 90000000
    (Conversation.mk "c2" "r1" "BOT" 3 0 (some 0) (some "OFF_HOURS_PENDING") 0) rfl rfl).1).2
    (Or.inr (Or.inr ⟨0, rfl, by decide⟩))

end Spec2Proof
